import Mathlib

/-!
A shallow embedding of the task execution supervisor implemented in
`src/bot.ts` of the claude-telegram-bot repository.

The embedding models the module-level mutable state of `bot.ts`
(`state`, `currentProcess`, `outputBuffer`, `heartbeatInterval`,
`quantumTimer`, `lastRequestTime`) as one record `SupState`, and each
command handler, subprocess event handler and timer callback as a pure
state-transition function.  Node's event loop runs handlers one at a
time, so a program run is a sequence of atomic events applied to the
state; the relation `Reach` closes the initial (loaded) state under all
events.

Timers are modelled with explicit handle slots (`hb`, `qt`, mirroring
the globals `heartbeatInterval` and `quantumTimer`) plus lists of
currently scheduled timer ids (`liveHB`, `liveQT`).  `setInterval` /
`setTimeout` allocate a fresh id and add it to the live list;
`clearInterval` / `clearTimeout` remove the id held in the handle.  A
timeout callback can only fire while its id is still scheduled (that is
Node semantics: a cleared or already-fired timeout never fires), and
firing a one-shot timeout removes its id from the live list.  Which
handler clears which timer, and when, is taken verbatim from the
source.
-/

namespace Bot

/-- Task status, `bot.ts` line 40:
`type TaskStatus = 'running' | 'paused' | 'completed' | 'stopped' | 'error'`. -/
inductive TaskStatus where
  | running
  | paused
  | completed
  | stopped
  | error
deriving DecidableEq, Repr

/-- The `TaskState` interface, `bot.ts` lines 42-53.  Timestamps are
epoch milliseconds, modelled as `Nat`; the UUID `id` is modelled as an
opaque `Nat`. -/
structure TaskState where
  id : Nat
  taskText : String
  status : TaskStatus
  startedAt : Nat
  quantumStartedAt : Nat
  chatId : Int
  statusMsgId : Option Nat
  logFilePath : String
  lastTail : List String
  continuationCount : Nat
deriving DecidableEq, Repr

/-- The persisted `AppState` interface, `bot.ts` lines 55-58. -/
structure AppState where
  unlockedUntil : Nat
  currentTask : Option TaskState
deriving DecidableEq, Repr

/-- The configuration surface read from the environment (`CONFIG`,
`bot.ts` lines 22-34).  Only the fields the modelled operations read
are kept; the rate-limit constant is hard-coded in the source
(`RATE_LIMIT_MS: 3000`) and appears below as a literal. -/
structure Config where
  workdir : String
  logDir : String
  unlockTtlMin : Nat
  quantumMin : Nat
  heartbeatSec : Nat
  tailLines : Nat
deriving DecidableEq, Repr

/-- The documented defaults of `CONFIG` (working directory stands in
for `process.cwd()`). -/
def defaultConfig : Config :=
  { workdir := "/work", logDir := "logs", unlockTtlMin := 10,
    quantumMin := 10, heartbeatSec := 25, tailLines := 20 }

/-- The whole module-level mutable state of `bot.ts` (lines 64-73),
together with the bookkeeping needed to model subprocess and timer
events:

* `app`            — the global `state : AppState`;
* `procHandle`     — whether `currentProcess` is non-null;
* `pendingClose`   — a spawned child process exists whose `close` event
                     has not yet been delivered (output data events and
                     the `close` event are only possible while this
                     holds);
* `pendingError`   — the spawned child's `error` event has not yet been
                     delivered;
* `outputBuffer`   — the global `outputBuffer : string[]`;
* `hb`, `qt`       — the handles `heartbeatInterval` and `quantumTimer`
                     (the scheduled timer id, or `none` for null);
* `liveHB`, `liveQT` — ids of currently scheduled interval / timeout
                     timers (scheduled and neither fired nor cleared);
* `freshTimer`     — id supply for newly created timers;
* `lastRequestTime` — the global `lastRequestTime`;
* `spawnedPrompt`  — the prompt string handed to the most recent
                     subprocess spawn, `none` before the first spawn. -/
structure SupState where
  app : AppState
  procHandle : Bool
  pendingClose : Bool
  pendingError : Bool
  outputBuffer : List String
  hb : Option Nat
  qt : Option Nat
  liveHB : List Nat
  liveQT : List Nat
  freshTimer : Nat
  lastRequestTime : Nat
  spawnedPrompt : Option String
deriving DecidableEq, Repr

/-- The observable outcome of one command handler: which reply path the
handler took (`bot.ts` replies with a distinct message on each guard
failure) or acceptance of the operation. -/
inductive CmdResult where
  | accepted
  | replyLocked
  | replyRateLimited
  | replyAlreadyActive
  | replyUsage
  | replyNoPaused
  | replyNoRunning
  | replyNoTask
deriving DecidableEq, Repr, BEq

/-- Replace the current task (`state.currentTask = ...`). -/
def setTask (o : Option TaskState) (s : SupState) : SupState :=
  { s with app := { s.app with currentTask := o } }

/-- Overwrite `state.unlockedUntil`. -/
def setUnlocked (u : Nat) (s : SupState) : SupState :=
  { s with app := { s.app with unlockedUntil := u } }

/-- Overwrite the global `lastRequestTime`. -/
def setLastReq (u : Nat) (s : SupState) : SupState :=
  { s with lastRequestTime := u }

/-- `array.slice(-n)`: the at most `n` most recent elements, in order.
In JavaScript `-0 === 0`, so `slice(-0)` is `slice(0)` and returns the
whole array; for positive `n` it returns the last `min n length`
elements. -/
def sliceLast (n : Nat) (l : List α) : List α :=
  if n = 0 then l else l.drop (l.length - n)

/-- `stopTimers()` (`bot.ts` lines 387-396): clear each non-null timer
handle and null it. -/
def stopTimers (s : SupState) : SupState :=
  let s1 :=
    match s.hb with
    | some i => { s with liveHB := s.liveHB.erase i, hb := none }
    | none => s
  match s1.qt with
  | some i => { s1 with liveQT := s1.liveQT.erase i, qt := none }
  | none => s1

/-- `startTimers(ctx)` (`bot.ts` lines 372-385): schedule a fresh
heartbeat interval and a fresh one-shot quantum timeout, storing their
handles in the globals.  Note the source never clears a previous handle
here. -/
def startTimers (s : SupState) : SupState :=
  { s with
    hb := some s.freshTimer,
    liveHB := s.freshTimer :: s.liveHB,
    qt := some (s.freshTimer + 1),
    liveQT := (s.freshTimer + 1) :: s.liveQT,
    freshTimer := s.freshTimer + 2 }

/-- `if (currentProcess) { currentProcess.kill(...); currentProcess = null; }`. -/
def killProc (s : SupState) : SupState :=
  if s.procHandle then { s with procHandle := false } else s

/-- Fixed text before the task description in
`buildContinuationPrompt` (`bot.ts` lines 258-274), after joining the
line array with newlines. -/
def promptHead : String :=
  "CONTINUATION PROMPT - Task was paused due to time limit.\n\nOriginal task: "

/-- Text after the task description in `buildContinuationPrompt`:
working directory, the last-tail block (`task.lastTail.slice(-20)`
joined with newlines) and the closing instruction. -/
def promptRest (cfg : Config) (t : TaskState) : String :=
  "\n\nWorking directory: " ++ cfg.workdir ++
    "\n\nLast output before pause:\n```\n" ++
    String.intercalate "\n" (sliceLast 20 t.lastTail) ++
    "\n```\n\nPlease continue the task from where it left off. Maintain consistency with previous work."

/-- `buildContinuationPrompt(task)` (`bot.ts` lines 258-274). -/
def buildContinuationPrompt (cfg : Config) (t : TaskState) : String :=
  promptHead ++ t.taskText ++ promptRest cfg t

/-- `startExecution(ctx, taskText, isResume)` (`bot.ts` lines 276-370):
mark the task running, stamp `quantumStartedAt`, clear the output
buffer, choose the prompt, spawn the subprocess and start both timers.
The source dereferences `state.currentTask!`; every caller has just
ensured a task exists, and the no-task case is modelled as a no-op. -/
def startExecution (cfg : Config) (now : Nat) (taskText : String)
    (isResume : Bool) (s : SupState) : SupState :=
  match s.app.currentTask with
  | none => s
  | some t =>
    let t1 := { t with status := TaskStatus.running, quantumStartedAt := now }
    let s1 := { setTask (some t1) s with outputBuffer := [] }
    let prompt := if isResume then buildContinuationPrompt cfg t1 else taskText
    let s2 := { s1 with procHandle := true, pendingClose := true,
                        pendingError := true, spawnedPrompt := some prompt }
    startTimers s2

/-- `isUnlocked()` (`bot.ts` lines 116-118): `Date.now() < state.unlockedUntil`. -/
def isUnlocked (now : Nat) (s : SupState) : Bool :=
  now < s.app.unlockedUntil

/-- `rateLimitCheck()` (`bot.ts` lines 131-138).  In JavaScript
`now - lastRequestTime < 3000` is also true when `now` is below
`lastRequestTime` (the difference is negative), which agrees with
truncated `Nat` subtraction here. -/
def rateLimitCheck (now : Nat) (s : SupState) : SupState × Bool :=
  if now - s.lastRequestTime < 3000 then (s, false)
  else (setLastReq now s, true)

/-- JavaScript `String.prototype.trim`: drop leading and trailing
whitespace.  (Defined on the character list so that it evaluates by
kernel reduction; `String.trim` is defined through well-founded
recursion on byte positions and does not reduce.) -/
def trimStr (s : String) : String :=
  ⟨((s.data.dropWhile Char.isWhitespace).reverse.dropWhile Char.isWhitespace).reverse⟩

/-- The `/run` guard `state.currentTask && (running || paused)`
(`bot.ts` line 532). -/
def taskActive (s : SupState) : Bool :=
  match s.app.currentTask with
  | some t => t.status = TaskStatus.running || t.status = TaskStatus.paused
  | none => false

/-- Whether the current task exists and is running. -/
def taskRunning (s : SupState) : Bool :=
  match s.app.currentTask with
  | some t => t.status = TaskStatus.running
  | none => false

/-- The `/run` command handler (`bot.ts` lines 521-563).  `text` is the
message text after the command word, `newId` models the fresh
`randomUUID()`.  Guards in source order: unlock gate, rate limit (which
updates `lastRequestTime` when it passes), active-task check, empty
description check; then the new task record is created and execution
starts. -/
def runCommand (cfg : Config) (now : Nat) (text : String) (chatId : Int)
    (newId : Nat) (s : SupState) : SupState × CmdResult :=
  if !(isUnlocked now s) then (s, CmdResult.replyLocked)
  else if now - s.lastRequestTime < 3000 then
    -- `rateLimitCheck` failed and left `lastRequestTime` untouched
    (s, CmdResult.replyRateLimited)
  else
    -- `rateLimitCheck` passed and stamped `lastRequestTime := now`
    let s1 := setLastReq now s
    if taskActive s1 then (s1, CmdResult.replyAlreadyActive)
    else if trimStr text = "" then (s1, CmdResult.replyUsage)
    else
      let t : TaskState :=
        { id := newId, taskText := trimStr text, status := TaskStatus.running,
          startedAt := now, quantumStartedAt := now, chatId := chatId,
          statusMsgId := none,
          logFilePath := cfg.logDir ++ "/task-" ++ toString newId ++ ".log",
          lastTail := [], continuationCount := 0 }
      (startExecution cfg now t.taskText false (setTask (some t) s1),
        CmdResult.accepted)

/-- The `/continue` command handler (`bot.ts` lines 580-596): unlock
gate, then the task must exist and be paused; `continuationCount++`,
then resume via `startExecution(..., true)`. -/
def continueCommand (cfg : Config) (now : Nat) (s : SupState) :
    SupState × CmdResult :=
  if !(isUnlocked now s) then (s, CmdResult.replyLocked)
  else
    match s.app.currentTask with
    | some t =>
      if t.status = TaskStatus.paused then
        let t1 := { t with continuationCount := t.continuationCount + 1 }
        (startExecution cfg now t1.taskText true (setTask (some t1) s),
          CmdResult.accepted)
      else (s, CmdResult.replyNoPaused)
    | none => (s, CmdResult.replyNoPaused)

/-- The `CONTINUE:<taskId>` callback handler (`bot.ts` lines 697-716):
unlock gate, then the task must exist, match the id and be paused. -/
def continueCallback (cfg : Config) (now : Nat) (taskId : Nat)
    (s : SupState) : SupState × CmdResult :=
  if !(isUnlocked now s) then (s, CmdResult.replyLocked)
  else
    match s.app.currentTask with
    | some t =>
      if t.id = taskId ∧ t.status = TaskStatus.paused then
        let t1 := { t with continuationCount := t.continuationCount + 1 }
        (startExecution cfg now t1.taskText true (setTask (some t1) s),
          CmdResult.accepted)
      else (s, CmdResult.replyNoPaused)
    | none => (s, CmdResult.replyNoPaused)

/-- `pauseCurrentTask(ctx)` (`bot.ts` lines 438-454): stop the timers,
kill the subprocess, then mark the task paused and snapshot the tail.
Like the source, this mutates any existing task without re-checking its
status (the status guard lives in the command handler). -/
def pauseCurrentTask (cfg : Config) (s : SupState) : SupState :=
  let s1 := killProc (stopTimers s)
  match s1.app.currentTask with
  | some t =>
    setTask (some { t with status := TaskStatus.paused,
                           lastTail := sliceLast cfg.tailLines s1.outputBuffer }) s1
  | none => s1

/-- `pauseForQuantumTimeout(ctx)` (`bot.ts` lines 398-416): the quantum
timer callback.  It stops the timers, kills the subprocess and marks
the task paused, snapshotting the tail.  Note it only checks that a
task exists — it does not re-check `status === 'running'`. -/
def pauseForQuantumTimeout (cfg : Config) (s : SupState) : SupState :=
  let s1 := killProc (stopTimers s)
  match s1.app.currentTask with
  | some t =>
    setTask (some { t with status := TaskStatus.paused,
                           lastTail := sliceLast cfg.tailLines s1.outputBuffer }) s1
  | none => s1

/-- The `/pause` command handler (`bot.ts` lines 631-638): rejected
unless a task exists with status running. -/
def pauseCommand (cfg : Config) (s : SupState) : SupState × CmdResult :=
  match s.app.currentTask with
  | some t =>
    if t.status = TaskStatus.running then (pauseCurrentTask cfg s, CmdResult.accepted)
    else (s, CmdResult.replyNoRunning)
  | none => (s, CmdResult.replyNoRunning)

/-- `stopCurrentTask(ctx)` (`bot.ts` lines 418-436): stop timers, kill
the subprocess gracefully; the task is marked stopped and its tail
snapshotted, persisted, and then the task is cleared (the final
persisted state has no task). -/
def stopCurrentTask (s : SupState) : SupState :=
  let s1 := killProc (stopTimers s)
  match s1.app.currentTask with
  | some _ => setTask none s1
  | none => s1

/-- The `/stop` command handler (`bot.ts` lines 599-607): rejected when
no task exists. -/
def stopCommand (s : SupState) : SupState × CmdResult :=
  match s.app.currentTask with
  | some _ => (stopCurrentTask s, CmdResult.accepted)
  | none => (s, CmdResult.replyNoTask)

/-- The `/cancel` command handler (`bot.ts` lines 610-628): rejected
when no task exists; otherwise stop timers, force-kill the subprocess
(`SIGKILL`), mark the task stopped, persist, then clear the task. -/
def cancelCommand (s : SupState) : SupState × CmdResult :=
  match s.app.currentTask with
  | none => (s, CmdResult.replyNoTask)
  | some _ => (setTask none (killProc (stopTimers s)), CmdResult.accepted)

/-- The `/status` command handler (`bot.ts` lines 566-577): replies
with a snapshot when a task exists, otherwise reports no active task;
no state is mutated either way. -/
def statusCommand (s : SupState) : SupState × CmdResult :=
  match s.app.currentTask with
  | none => (s, CmdResult.replyNoTask)
  | some _ => (s, CmdResult.accepted)

/-- The stdout `data` handler (`bot.ts` lines 302-316) applied to one
chunk already split at newlines: push each non-empty line, then compact
the buffer to its newest 500 lines when it exceeds 1000
(`outputBuffer = outputBuffer.slice(-500)`). -/
def appendStdout (lines : List String) (buf : List String) : List String :=
  let buf1 := buf ++ lines.filter (fun l => l ≠ "")
  if buf1.length > 1000 then sliceLast 500 buf1 else buf1

/-- The stderr `data` handler (`bot.ts` lines 318-328): push each
non-empty line with an `[ERR] ` marker.  This path performs no
compaction. -/
def appendStderr (lines : List String) (buf : List String) : List String :=
  buf ++ (lines.filter (fun l => l ≠ "")).map (fun l => "[ERR] " ++ l)

/-- The subprocess `close` handler (`bot.ts` lines 335-349): null the
process handle, stop the timers; when the task is still running, set
`completed` on exit code 0 and `error` otherwise (a null exit code also
yields `error`), snapshotting the tail. -/
def handleClose (cfg : Config) (code : Option Int) (s : SupState) : SupState :=
  let s1 := stopTimers { s with procHandle := false, pendingClose := false }
  match s1.app.currentTask with
  | some t =>
    if t.status = TaskStatus.running then
      setTask (some { t with
        status := if code = some 0 then TaskStatus.completed else TaskStatus.error,
        lastTail := sliceLast cfg.tailLines s1.outputBuffer }) s1
    else s1
  | none => s1

/-- The subprocess `error` handlers.  Two handlers are registered for
the `error` event (`bot.ts` lines 330-333 and 351-362) and both run:
the first pushes a `[SPAWN ERROR]` line into the output buffer, the
second nulls the process handle, stops the timers and marks any
existing task as `error`. -/
def handleSpawnError (msg : String) (s : SupState) : SupState :=
  let s1 := { s with outputBuffer := s.outputBuffer ++ ["[SPAWN ERROR] " ++ msg],
                     pendingError := false }
  let s2 := stopTimers { s1 with procHandle := false }
  match s2.app.currentTask with
  | some t => setTask (some { t with status := TaskStatus.error }) s2
  | none => s2

/-- The default in-memory state (`bot.ts` lines 64-67). -/
def initialAppState : AppState :=
  { unlockedUntil := 0, currentTask := none }

/-- `loadState()` (`bot.ts` lines 79-95) applied to a successfully
parsed persisted record: merge it over the default state, then, if the
loaded task has status running, reclassify it to paused before anything
else runs. -/
def loadState (loaded : AppState) : AppState :=
  match loaded.currentTask with
  | some t =>
    if t.status = TaskStatus.running then
      { loaded with currentTask := some { t with status := TaskStatus.paused } }
    else loaded
  | none => loaded

/-- The supervisor state right after process start and `loadState()`:
no subprocess, no timers, empty buffer.  `loaded` is the persisted
record when the state file existed and parsed, `none` otherwise. -/
def initialState (loaded : Option AppState) : SupState :=
  { app := match loaded with
           | none => initialAppState
           | some l => loadState l,
    procHandle := false, pendingClose := false, pendingError := false,
    outputBuffer := [], hb := none, qt := none, liveHB := [], liveQT := [],
    freshTimer := 0, lastRequestTime := 0, spawnedPrompt := none }

/-- One atomic event processed by Node's event loop: an operator
command or button press, a subprocess stream / termination event, or a
timer firing.  Command events carry the wall clock reading `now` and
any operator-supplied data; `pwOk` on `unlock` models whether the
supplied password equals the stored one. -/
inductive Event where
  | unlock (now : Nat) (pwOk : Bool)
  | lockBot
  | run (now : Nat) (text : String) (chatId : Int) (newId : Nat)
  | cont (now : Nat)
  | contBtn (now : Nat) (taskId : Nat)
  | pauseEv
  | stopEv
  | cancelEv
  | statusEv
  | stdoutData (lines : List String)
  | stderrData (lines : List String)
  | closeEv (code : Option Int)
  | spawnErr (msg : String)
  | heartbeatTick
  | quantumExpiry
deriving DecidableEq, Repr

/-- The quantum-expiry callback can fire only while the timeout held in
`quantumTimer` is still scheduled (neither fired nor cleared). -/
def quantumEnabled (s : SupState) : Bool :=
  match s.qt with
  | some i => s.liveQT.contains i
  | none => false

/-- The state transition performed by one event.  Events whose
precondition does not hold (a timer that is not scheduled, a subprocess
event with no live subprocess) cannot be delivered and are the identity.
The heartbeat callback (`bot.ts` lines 374-379) only re-renders the
status message, so it is the identity on the modelled state. -/
def stepEvent (cfg : Config) (e : Event) (s : SupState) : SupState :=
  match e with
  | Event.unlock now pwOk =>
    if pwOk then setUnlocked (now + cfg.unlockTtlMin * 60 * 1000) s else s
  | Event.lockBot => setUnlocked 0 s
  | Event.run now text chatId newId => (runCommand cfg now text chatId newId s).1
  | Event.cont now => (continueCommand cfg now s).1
  | Event.contBtn now taskId => (continueCallback cfg now taskId s).1
  | Event.pauseEv => (pauseCommand cfg s).1
  | Event.stopEv => (stopCommand s).1
  | Event.cancelEv => (cancelCommand s).1
  | Event.statusEv => (statusCommand s).1
  | Event.stdoutData lines =>
    if s.pendingClose then { s with outputBuffer := appendStdout lines s.outputBuffer }
    else s
  | Event.stderrData lines =>
    if s.pendingClose then { s with outputBuffer := appendStderr lines s.outputBuffer }
    else s
  | Event.closeEv code => if s.pendingClose then handleClose cfg code s else s
  | Event.spawnErr msg => if s.pendingError then handleSpawnError msg s else s
  | Event.heartbeatTick => s
  | Event.quantumExpiry =>
    match s.qt with
    | some i =>
      if s.liveQT.contains i then
        pauseForQuantumTimeout cfg { s with liveQT := s.liveQT.erase i }
      else s
    | none => s

/-- Run a list of events in order. -/
def runEvents (cfg : Config) : List Event → SupState → SupState
  | [], s => s
  | e :: es, s => runEvents cfg es (stepEvent cfg e s)

/-- Whether an event is the `/run` command (which replaces the Task). -/
def isRunEvent : Event → Bool
  | Event.run _ _ _ _ => true
  | _ => false

/-- Whether the event is a `continue` (command or button) that is
accepted in the given state. -/
def contAccepted (cfg : Config) (e : Event) (s : SupState) : Bool :=
  match e with
  | Event.cont now => (continueCommand cfg now s).2 == CmdResult.accepted
  | Event.contBtn now taskId =>
    (continueCallback cfg now taskId s).2 == CmdResult.accepted
  | _ => false

/-- Number of accepted `continue` operations along an event sequence. -/
def contsAccepted (cfg : Config) : List Event → SupState → Nat
  | [], _ => 0
  | e :: es, s =>
    (if contAccepted cfg e s then 1 else 0) + contsAccepted cfg es (stepEvent cfg e s)

/-- The states the supervisor can actually be in: any freshly loaded
state, closed under all events. -/
inductive Reach (cfg : Config) : SupState → Prop where
  | init (loaded : Option AppState) : Reach cfg (initialState loaded)
  | step (e : Event) {s : SupState} : Reach cfg s → Reach cfg (stepEvent cfg e s)

/-- The timer bookkeeping invariant: the live timer lists hold exactly
the ids referenced by the global handles, and a non-null handle implies
the current task exists and is running. -/
def TimerInv (s : SupState) : Prop :=
  s.liveHB = s.hb.toList ∧ s.liveQT = s.qt.toList ∧
    ((s.hb.isSome || s.qt.isSome) = true → taskRunning s = true)

instance : DecidablePred TimerInv := fun s => by
  unfold TimerInv; infer_instance

/-! ### Concrete states used by witnesses and counterexamples -/

/-- A supervisor state with the given app state and everything else as
at a fresh process start. -/
def mkSup (app : AppState) : SupState :=
  { app := app, procHandle := false, pendingClose := false, pendingError := false,
    outputBuffer := [], hb := none, qt := none, liveHB := [], liveQT := [],
    freshTimer := 0, lastRequestTime := 0, spawnedPrompt := none }

/-- A paused demo task. -/
def tPaused : TaskState :=
  { id := 7, taskText := "do", status := TaskStatus.paused, startedAt := 1,
    quantumStartedAt := 1, chatId := 0, statusMsgId := none,
    logFilePath := "logs/task-7.log", lastTail := ["a", "b"],
    continuationCount := 0 }

/-- A running demo task. -/
def tRun : TaskState := { tPaused with status := TaskStatus.running }

/-- A completed demo task. -/
def tDone : TaskState := { tPaused with status := TaskStatus.completed }

/-- Unlocked, no task, limiter idle. -/
def sIdleUnlocked : SupState := mkSup { unlockedUntil := 999999, currentTask := none }

/-- Unlocked, paused task. -/
def sPausedW : SupState := mkSup { unlockedUntil := 100, currentTask := some tPaused }

/-- An (unreachable) state with a paused task while both timer handles
still hold live timers of an earlier burst. -/
def sPausedLeak : SupState :=
  { mkSup { unlockedUntil := 100, currentTask := some tPaused } with
    hb := some 0, qt := some 1, liveHB := [0], liveQT := [1], freshTimer := 2 }

/-- A state whose task has already completed. -/
def sDone : SupState := mkSup { unlockedUntil := 0, currentTask := some tDone }

/-- Locked, running task. -/
def sLockedRun : SupState := mkSup { unlockedUntil := 0, currentTask := some tRun }

/-- Unlocked, running task, limiter idle. -/
def sActiveRun : SupState := mkSup { unlockedUntil := 999999, currentTask := some tRun }

/-- Unlocked, running task, with a live subprocess and some output. -/
def sRunProc : SupState :=
  { mkSup { unlockedUntil := 999999, currentTask := some tRun } with
    procHandle := true, pendingClose := true, pendingError := true,
    outputBuffer := ["l1", "l2"] }

/-- A reachable state with a running task: boot, unlock, `/run`. -/
def sRunDemo : SupState :=
  stepEvent defaultConfig (Event.run 5000 "do" 0 1)
    (stepEvent defaultConfig (Event.unlock 0 true) (initialState none))

/-- A reachable state with a paused task: `sRunDemo` then `/pause`. -/
def sPausedDemo : SupState := stepEvent defaultConfig Event.pauseEv sRunDemo

/-! ### Field lemmas for the state helpers -/

@[simp] theorem setTask_currentTask (o : Option TaskState) (s : SupState) : (setTask o s).app.currentTask = o := rfl

@[simp] theorem setTask_unlockedUntil (o : Option TaskState) (s : SupState) : (setTask o s).app.unlockedUntil = s.app.unlockedUntil := rfl

@[simp] theorem setTask_hb (o : Option TaskState) (s : SupState) : (setTask o s).hb = s.hb := rfl

@[simp] theorem setTask_qt (o : Option TaskState) (s : SupState) : (setTask o s).qt = s.qt := rfl

@[simp] theorem setTask_liveHB (o : Option TaskState) (s : SupState) : (setTask o s).liveHB = s.liveHB := rfl

@[simp] theorem setTask_liveQT (o : Option TaskState) (s : SupState) : (setTask o s).liveQT = s.liveQT := rfl

@[simp] theorem setTask_freshTimer (o : Option TaskState) (s : SupState) : (setTask o s).freshTimer = s.freshTimer := rfl

@[simp] theorem setTask_outputBuffer (o : Option TaskState) (s : SupState) : (setTask o s).outputBuffer = s.outputBuffer := rfl

@[simp] theorem setTask_lastRequestTime (o : Option TaskState) (s : SupState) : (setTask o s).lastRequestTime = s.lastRequestTime := rfl

@[simp] theorem setTask_spawnedPrompt (o : Option TaskState) (s : SupState) : (setTask o s).spawnedPrompt = s.spawnedPrompt := rfl

@[simp] theorem setTask_procHandle (o : Option TaskState) (s : SupState) : (setTask o s).procHandle = s.procHandle := rfl

@[simp] theorem setTask_pendingClose (o : Option TaskState) (s : SupState) : (setTask o s).pendingClose = s.pendingClose := rfl

@[simp] theorem setTask_pendingError (o : Option TaskState) (s : SupState) : (setTask o s).pendingError = s.pendingError := rfl

@[simp] theorem setUnlocked_currentTask (u : Nat) (s : SupState) : (setUnlocked u s).app.currentTask = s.app.currentTask := rfl

@[simp] theorem setUnlocked_unlockedUntil (u : Nat) (s : SupState) : (setUnlocked u s).app.unlockedUntil = u := rfl

@[simp] theorem setUnlocked_hb (u : Nat) (s : SupState) : (setUnlocked u s).hb = s.hb := rfl

@[simp] theorem setUnlocked_qt (u : Nat) (s : SupState) : (setUnlocked u s).qt = s.qt := rfl

@[simp] theorem setUnlocked_liveHB (u : Nat) (s : SupState) : (setUnlocked u s).liveHB = s.liveHB := rfl

@[simp] theorem setUnlocked_liveQT (u : Nat) (s : SupState) : (setUnlocked u s).liveQT = s.liveQT := rfl

@[simp] theorem setLastReq_currentTask (u : Nat) (s : SupState) : (setLastReq u s).app.currentTask = s.app.currentTask := rfl

@[simp] theorem setLastReq_unlockedUntil (u : Nat) (s : SupState) : (setLastReq u s).app.unlockedUntil = s.app.unlockedUntil := rfl

@[simp] theorem setLastReq_hb (u : Nat) (s : SupState) : (setLastReq u s).hb = s.hb := rfl

@[simp] theorem setLastReq_qt (u : Nat) (s : SupState) : (setLastReq u s).qt = s.qt := rfl

@[simp] theorem setLastReq_liveHB (u : Nat) (s : SupState) : (setLastReq u s).liveHB = s.liveHB := rfl

@[simp] theorem setLastReq_liveQT (u : Nat) (s : SupState) : (setLastReq u s).liveQT = s.liveQT := rfl

@[simp] theorem setLastReq_lastRequestTime (u : Nat) (s : SupState) : (setLastReq u s).lastRequestTime = u := rfl

@[simp] theorem taskRunning_setTask (o : Option TaskState) (s : SupState) : taskRunning (setTask o s) = (match o with | some t => decide (t.status = TaskStatus.running) | none => false) := rfl

@[simp] theorem taskRunning_setUnlocked (u : Nat) (s : SupState) : taskRunning (setUnlocked u s) = taskRunning s := rfl

@[simp] theorem taskRunning_setLastReq (u : Nat) (s : SupState) : taskRunning (setLastReq u s) = taskRunning s := rfl

/-! ### Lemmas about `stopTimers`, `startTimers`, `killProc` -/

theorem stopTimers_eq (s : SupState) :
    stopTimers s =
      { s with hb := none, qt := none,
               liveHB := match s.hb with
                         | some i => s.liveHB.erase i
                         | none => s.liveHB,
               liveQT := match s.qt with
                         | some i => s.liveQT.erase i
                         | none => s.liveQT } := by
  rcases s with ⟨app, ph, pc, pe, ob, hb, qt, lhb, lqt, ft, lrt, sp⟩
  cases hb <;> cases qt <;> rfl

@[simp] theorem stopTimers_hb (s : SupState) : (stopTimers s).hb = none := by
  rw [stopTimers_eq]

@[simp] theorem stopTimers_qt (s : SupState) : (stopTimers s).qt = none := by
  rw [stopTimers_eq]

@[simp] theorem stopTimers_app (s : SupState) : (stopTimers s).app = s.app := by
  rw [stopTimers_eq]

@[simp] theorem stopTimers_outputBuffer (s : SupState) : (stopTimers s).outputBuffer = s.outputBuffer := by
  rw [stopTimers_eq]

@[simp] theorem stopTimers_procHandle (s : SupState) : (stopTimers s).procHandle = s.procHandle := by
  rw [stopTimers_eq]

@[simp] theorem stopTimers_pendingClose (s : SupState) : (stopTimers s).pendingClose = s.pendingClose := by
  rw [stopTimers_eq]

@[simp] theorem stopTimers_pendingError (s : SupState) : (stopTimers s).pendingError = s.pendingError := by
  rw [stopTimers_eq]

@[simp] theorem stopTimers_lastRequestTime (s : SupState) : (stopTimers s).lastRequestTime = s.lastRequestTime := by
  rw [stopTimers_eq]

@[simp] theorem stopTimers_spawnedPrompt (s : SupState) : (stopTimers s).spawnedPrompt = s.spawnedPrompt := by
  rw [stopTimers_eq]

@[simp] theorem stopTimers_freshTimer (s : SupState) : (stopTimers s).freshTimer = s.freshTimer := by
  rw [stopTimers_eq]

theorem stopTimers_liveHB_nil (s : SupState) (h : s.liveHB = s.hb.toList) :
    (stopTimers s).liveHB = [] := by
  rw [stopTimers_eq]
  cases hhb : s.hb <;> simp [hhb, Option.toList] at h <;> simp [h]

theorem stopTimers_liveQT_nil (s : SupState) (h : s.liveQT = s.qt.toList) :
    (stopTimers s).liveQT = [] := by
  rw [stopTimers_eq]
  cases hqt : s.qt <;> simp [hqt, Option.toList] at h <;> simp [h]

theorem stopTimers_liveQT_nil' (s : SupState) (h : s.liveQT = []) :
    (stopTimers s).liveQT = [] := by
  rw [stopTimers_eq]
  cases hqt : s.qt <;> simp [h]

/-- `stopTimers` is idempotent: both handles are null afterwards, so a
second call changes nothing. -/
theorem stopTimers_idem (s : SupState) : stopTimers (stopTimers s) = stopTimers s := by
  rw [stopTimers_eq (stopTimers s)]
  simp [stopTimers_eq]

@[simp] theorem startTimers_hb (s : SupState) : (startTimers s).hb = some s.freshTimer := rfl

@[simp] theorem startTimers_qt (s : SupState) : (startTimers s).qt = some (s.freshTimer + 1) := rfl

@[simp] theorem startTimers_liveHB (s : SupState) : (startTimers s).liveHB = s.freshTimer :: s.liveHB := rfl

@[simp] theorem startTimers_liveQT (s : SupState) : (startTimers s).liveQT = (s.freshTimer + 1) :: s.liveQT := rfl

@[simp] theorem startTimers_app (s : SupState) : (startTimers s).app = s.app := rfl

@[simp] theorem startTimers_outputBuffer (s : SupState) : (startTimers s).outputBuffer = s.outputBuffer := rfl

@[simp] theorem startTimers_spawnedPrompt (s : SupState) : (startTimers s).spawnedPrompt = s.spawnedPrompt := rfl

@[simp] theorem startTimers_lastRequestTime (s : SupState) : (startTimers s).lastRequestTime = s.lastRequestTime := rfl

theorem killProc_eq (s : SupState) : killProc s = { s with procHandle := false } := by
  rcases s with ⟨app, ph, pc, pe, ob, hb, qt, lhb, lqt, ft, lrt, sp⟩
  cases ph <;> rfl

@[simp] theorem killProc_app (s : SupState) : (killProc s).app = s.app := by
  rw [killProc_eq]

@[simp] theorem killProc_hb (s : SupState) : (killProc s).hb = s.hb := by
  rw [killProc_eq]

@[simp] theorem killProc_qt (s : SupState) : (killProc s).qt = s.qt := by
  rw [killProc_eq]

@[simp] theorem killProc_liveHB (s : SupState) : (killProc s).liveHB = s.liveHB := by
  rw [killProc_eq]

@[simp] theorem killProc_liveQT (s : SupState) : (killProc s).liveQT = s.liveQT := by
  rw [killProc_eq]

@[simp] theorem killProc_outputBuffer (s : SupState) : (killProc s).outputBuffer = s.outputBuffer := by
  rw [killProc_eq]

@[simp] theorem killProc_procHandle (s : SupState) : (killProc s).procHandle = false := by
  rw [killProc_eq]

@[simp] theorem killProc_lastRequestTime (s : SupState) : (killProc s).lastRequestTime = s.lastRequestTime := by
  rw [killProc_eq]

@[simp] theorem killProc_spawnedPrompt (s : SupState) : (killProc s).spawnedPrompt = s.spawnedPrompt := by
  rw [killProc_eq]

/-! ### Equation lemmas for the compound operations -/

/-- The updated task record `startExecution` installs. -/
def resumedTask (now : Nat) (t : TaskState) : TaskState :=
  { t with status := TaskStatus.running, quantumStartedAt := now }

theorem startExecution_eq (cfg : Config) (now : Nat) (text : String)
    (isResume : Bool) (s : SupState) (t : TaskState)
    (hct : s.app.currentTask = some t) :
    startExecution cfg now text isResume s =
      startTimers
        { setTask (some (resumedTask now t)) s with
          outputBuffer := [], procHandle := true, pendingClose := true,
          pendingError := true,
          spawnedPrompt := some (if isResume then
            buildContinuationPrompt cfg (resumedTask now t) else text) } := by
  unfold startExecution
  rw [hct]
  rfl

theorem pauseCurrentTask_eq (cfg : Config) (s : SupState) (t : TaskState)
    (hct : s.app.currentTask = some t) :
    pauseCurrentTask cfg s =
      setTask (some { t with status := TaskStatus.paused,
                             lastTail := sliceLast cfg.tailLines s.outputBuffer })
        (killProc (stopTimers s)) := by
  have hx : (killProc (stopTimers s)).app.currentTask = some t := by simp [hct]
  unfold pauseCurrentTask
  simp only [hx, killProc_outputBuffer, stopTimers_outputBuffer]

theorem pauseForQuantumTimeout_eq (cfg : Config) (s : SupState) (t : TaskState)
    (hct : s.app.currentTask = some t) :
    pauseForQuantumTimeout cfg s =
      setTask (some { t with status := TaskStatus.paused,
                             lastTail := sliceLast cfg.tailLines s.outputBuffer })
        (killProc (stopTimers s)) := by
  have hx : (killProc (stopTimers s)).app.currentTask = some t := by simp [hct]
  unfold pauseForQuantumTimeout
  simp only [hx, killProc_outputBuffer, stopTimers_outputBuffer]

theorem pauseForQuantumTimeout_none (cfg : Config) (s : SupState)
    (hct : s.app.currentTask = none) :
    pauseForQuantumTimeout cfg s = killProc (stopTimers s) := by
  have hx : (killProc (stopTimers s)).app.currentTask = none := by simp [hct]
  unfold pauseForQuantumTimeout
  simp only [hx]

theorem stopCurrentTask_eq (s : SupState) (t : TaskState)
    (hct : s.app.currentTask = some t) :
    stopCurrentTask s = setTask none (killProc (stopTimers s)) := by
  have hx : (killProc (stopTimers s)).app.currentTask = some t := by simp [hct]
  unfold stopCurrentTask
  simp only [hx]

@[simp] theorem taskActive_setLastReq (u : Nat) (s : SupState) :
    taskActive (setLastReq u s) = taskActive s := rfl

@[simp] theorem taskActive_setTask (o : Option TaskState) (s : SupState) :
    taskActive (setTask o s) = (match o with
      | some t => t.status = TaskStatus.running || t.status = TaskStatus.paused
      | none => false) := rfl

theorem buildContinuationPrompt_congr (cfg : Config) (t1 t2 : TaskState)
    (h1 : t1.taskText = t2.taskText) (h2 : t1.lastTail = t2.lastTail) :
    buildContinuationPrompt cfg t1 = buildContinuationPrompt cfg t2 := by
  simp [buildContinuationPrompt, promptRest, h1, h2]

/-! ### The timer invariant holds in every reachable state -/

theorem taskRunning_imp_active (s : SupState) (h : taskRunning s = true) :
    taskActive s = true := by
  unfold taskRunning at h
  unfold taskActive
  cases hct : s.app.currentTask with
  | none => rw [hct] at h; exact absurd h (by simp)
  | some t => rw [hct] at h; simp_all

theorem taskRunning_false_of_not_active (s : SupState) (h : taskActive s = false) :
    taskRunning s = false := by
  cases hx : taskRunning s with
  | false => rfl
  | true =>
    have := taskRunning_imp_active s hx
    rw [h] at this
    exact absurd this (by simp)

theorem timerInv_cleared (s : SupState) (hhb : s.hb = none) (hqt : s.qt = none)
    (hLH : s.liveHB = []) (hLQ : s.liveQT = []) : TimerInv s :=
  ⟨by simp [hhb, hLH], by simp [hqt, hLQ], by simp [hhb, hqt]⟩

theorem timerInv_startExecution (cfg : Config) (now : Nat) (text : String)
    (isResume : Bool) (s : SupState) (t : TaskState)
    (hct : s.app.currentTask = some t)
    (hLH : s.liveHB = []) (hLQ : s.liveQT = []) :
    TimerInv (startExecution cfg now text isResume s) := by
  rw [startExecution_eq cfg now text isResume s t hct]
  refine ⟨?_, ?_, ?_⟩
  · simp [hLH, Option.toList]
  · simp [hLQ, Option.toList]
  · intro _
    simp [taskRunning, resumedTask]

theorem timerInv_no_timers (s : SupState) (h : TimerInv s)
    (hr : taskRunning s = false) :
    s.hb = none ∧ s.qt = none ∧ s.liveHB = [] ∧ s.liveQT = [] := by
  obtain ⟨h1, h2, h3⟩ := h
  have hnone : s.hb = none ∧ s.qt = none := by
    by_contra hc
    have : (s.hb.isSome || s.qt.isSome) = true := by
      cases hhb : s.hb <;> cases hqt : s.qt <;> simp_all
    rw [h3 this] at hr
    exact absurd hr (by simp)
  refine ⟨hnone.1, hnone.2, ?_, ?_⟩
  · rw [h1, hnone.1]; rfl
  · rw [h2, hnone.2]; rfl

theorem timerInv_step (cfg : Config) (e : Event) (s : SupState)
    (h : TimerInv s) : TimerInv (stepEvent cfg e s) := by
  obtain ⟨h1, h2, h3⟩ := h
  cases e with
  | unlock now pwOk =>
    simp only [stepEvent]
    split
    · exact ⟨by simpa using h1, by simpa using h2, by simpa using h3⟩
    · exact ⟨h1, h2, h3⟩
  | lockBot =>
    exact ⟨by simpa using h1, by simpa using h2, by simpa using h3⟩
  | run now text chatId newId =>
    simp only [stepEvent]
    unfold runCommand
    split
    · exact ⟨h1, h2, h3⟩
    · by_cases hcond : now - s.lastRequestTime < 3000
      · simp only [if_pos hcond]
        exact ⟨h1, h2, h3⟩
      · simp only [if_neg hcond]
        split
        · exact ⟨by simpa using h1, by simpa using h2, by simpa using h3⟩
        · split
          · exact ⟨by simpa using h1, by simpa using h2, by simpa using h3⟩
          · rename_i hactive hempty
            have hact : taskActive s = false := by
              have := hactive
              simp only [taskActive_setLastReq] at this
              cases hx : taskActive s with
              | false => rfl
              | true => exact absurd hx this
            have hr' : taskRunning s = false := taskRunning_false_of_not_active s hact
            obtain ⟨ha, hb', hc, hd⟩ := timerInv_no_timers s ⟨h1, h2, h3⟩ hr'
            refine timerInv_startExecution cfg now _ false _
              { id := newId, taskText := trimStr text, status := TaskStatus.running,
                startedAt := now, quantumStartedAt := now, chatId := chatId,
                statusMsgId := none,
                logFilePath := cfg.logDir ++ "/task-" ++ toString newId ++ ".log",
                lastTail := [], continuationCount := 0 }
              (by simp) (by simpa using hc) (by simpa using hd)
  | cont now =>
    simp only [stepEvent, continueCommand]
    split
    · exact ⟨h1, h2, h3⟩
    · cases hct : s.app.currentTask with
      | none => simp only [hct]; exact ⟨h1, h2, h3⟩
      | some t =>
        simp only [hct]
        split
        · rename_i hp
          have hr : taskRunning s = false := by
            simp [taskRunning, hct, hp]
          obtain ⟨ha, hb', hc, hd⟩ := timerInv_no_timers s ⟨h1, h2, h3⟩ hr
          exact timerInv_startExecution cfg now _ true _
            { t with continuationCount := t.continuationCount + 1 }
            (by simp) (by simpa using hc) (by simpa using hd)
        · exact ⟨h1, h2, h3⟩
  | contBtn now taskId =>
    simp only [stepEvent, continueCallback]
    split
    · exact ⟨h1, h2, h3⟩
    · cases hct : s.app.currentTask with
      | none => simp only [hct]; exact ⟨h1, h2, h3⟩
      | some t =>
        simp only [hct]
        split
        · rename_i hp
          have hr : taskRunning s = false := by
            simp [taskRunning, hct, hp.2]
          obtain ⟨ha, hb', hc, hd⟩ := timerInv_no_timers s ⟨h1, h2, h3⟩ hr
          exact timerInv_startExecution cfg now _ true _
            { t with continuationCount := t.continuationCount + 1 }
            (by simp) (by simpa using hc) (by simpa using hd)
        · exact ⟨h1, h2, h3⟩
  | pauseEv =>
    simp only [stepEvent, pauseCommand]
    cases hct : s.app.currentTask with
    | none => simp only [hct]; exact ⟨h1, h2, h3⟩
    | some t =>
      simp only [hct]
      split
      · rw [pauseCurrentTask_eq cfg s t hct]
        exact timerInv_cleared _ (by simp) (by simp)
          (by simp [stopTimers_liveHB_nil s h1])
          (by simp [stopTimers_liveQT_nil s h2])
      · exact ⟨h1, h2, h3⟩
  | stopEv =>
    simp only [stepEvent, stopCommand]
    cases hct : s.app.currentTask with
    | none => simp only [hct]; exact ⟨h1, h2, h3⟩
    | some t =>
      simp only [hct]
      rw [stopCurrentTask_eq s t hct]
      exact timerInv_cleared _ (by simp) (by simp)
        (by simp [stopTimers_liveHB_nil s h1])
        (by simp [stopTimers_liveQT_nil s h2])
  | cancelEv =>
    simp only [stepEvent, cancelCommand]
    cases hct : s.app.currentTask with
    | none => simp only [hct]; exact ⟨h1, h2, h3⟩
    | some t =>
      simp only [hct]
      exact timerInv_cleared _ (by simp) (by simp)
        (by simp [stopTimers_liveHB_nil s h1])
        (by simp [stopTimers_liveQT_nil s h2])
  | statusEv =>
    simp only [stepEvent, statusCommand]
    cases hct : s.app.currentTask with
    | none => simp only [hct]; exact ⟨h1, h2, h3⟩
    | some t => simp only [hct]; exact ⟨h1, h2, h3⟩
  | stdoutData lines =>
    simp only [stepEvent]
    split
    · exact ⟨h1, h2, h3⟩
    · exact ⟨h1, h2, h3⟩
  | stderrData lines =>
    simp only [stepEvent]
    split
    · exact ⟨h1, h2, h3⟩
    · exact ⟨h1, h2, h3⟩
  | closeEv code =>
    simp only [stepEvent]
    split
    · simp only [handleClose]
      have hcl : TimerInv (stopTimers { s with procHandle := false, pendingClose := false }) := by
        refine timerInv_cleared _ (by simp) (by simp) ?_ ?_
        · exact stopTimers_liveHB_nil _ h1
        · exact stopTimers_liveQT_nil _ h2
      cases hct : (stopTimers { s with procHandle := false, pendingClose := false }).app.currentTask with
      | none => simp only [hct]; exact hcl
      | some t =>
        simp only [hct]
        split
        · obtain ⟨g1, g2, g3⟩ := hcl
          exact ⟨by simpa using g1, by simpa using g2, by simp⟩
        · exact hcl
    · exact ⟨h1, h2, h3⟩
  | spawnErr msg =>
    simp only [stepEvent]
    split
    · simp only [handleSpawnError]
      have hcl : TimerInv (stopTimers { s with
          outputBuffer := s.outputBuffer ++ ["[SPAWN ERROR] " ++ msg],
          pendingError := false, procHandle := false }) := by
        refine timerInv_cleared _ (by simp) (by simp) ?_ ?_
        · exact stopTimers_liveHB_nil _ h1
        · exact stopTimers_liveQT_nil _ h2
      obtain ⟨g1, g2, g3⟩ := hcl
      split
      · exact ⟨by simpa using g1, by simpa using g2, by simp⟩
      · exact ⟨g1, g2, g3⟩
    · exact ⟨h1, h2, h3⟩
  | heartbeatTick => exact ⟨h1, h2, h3⟩
  | quantumExpiry =>
    obtain ⟨app, ph, pc, pe, ob, hb, qt, lhb, lqt, ft, lrt, sp⟩ := s
    simp only at h1 h2 h3
    cases qt with
    | none => exact ⟨h1, h2, h3⟩
    | some i =>
      rw [show stepEvent cfg Event.quantumExpiry
            ⟨app, ph, pc, pe, ob, hb, some i, lhb, lqt, ft, lrt, sp⟩ =
          (if lqt.contains i then
            pauseForQuantumTimeout cfg
              ⟨app, ph, pc, pe, ob, hb, some i, lhb, lqt.erase i, ft, lrt, sp⟩
          else ⟨app, ph, pc, pe, ob, hb, some i, lhb, lqt, ft, lrt, sp⟩)
          from rfl]
      split
      · have hLQ : (⟨app, ph, pc, pe, ob, hb, some i, lhb, lqt.erase i, ft, lrt, sp⟩ : SupState).liveQT = [] := by
          simp only []
          rw [h2]
          simp [Option.toList]
        have hLH : (⟨app, ph, pc, pe, ob, hb, some i, lhb, lqt.erase i, ft, lrt, sp⟩ : SupState).liveHB = (⟨app, ph, pc, pe, ob, hb, some i, lhb, lqt.erase i, ft, lrt, sp⟩ : SupState).hb.toList := h1
        cases hct : (⟨app, ph, pc, pe, ob, hb, some i, lhb, lqt.erase i, ft, lrt, sp⟩ : SupState).app.currentTask with
        | none =>
          rw [pauseForQuantumTimeout_none cfg _ hct]
          refine timerInv_cleared _ (by simp) (by simp) ?_ ?_
          · simp [stopTimers_liveHB_nil _ hLH]
          · simp [stopTimers_liveQT_nil' _ hLQ]
        | some t =>
          rw [pauseForQuantumTimeout_eq cfg _ t hct]
          refine timerInv_cleared _ (by simp) (by simp) ?_ ?_
          · simp [stopTimers_liveHB_nil _ hLH]
          · simp [stopTimers_liveQT_nil' _ hLQ]
      · exact ⟨h1, h2, h3⟩

/-- Every reachable supervisor state satisfies the timer invariant: the
live timer lists mirror the global handles, and any non-null timer
handle implies a running task. -/
theorem timerInv_reach (cfg : Config) (s : SupState) (h : Reach cfg s) :
    TimerInv s := by
  induction h with
  | init loaded =>
    exact timerInv_cleared _ rfl rfl rfl rfl
  | step e hs ih => exact timerInv_step cfg e _ ih

/-! ### Claim C1 -/

/-- Claim C1: `loadState` reclassifies a persisted Running task to
Paused before any other processing — the loaded state never carries a
Running task, and a persisted Running task comes back as the same task
with status Paused and every other field unchanged. -/
theorem c1_load_reclassifies_running (loaded : AppState) :
    (∀ t', (loadState loaded).currentTask = some t' →
      t'.status ≠ TaskStatus.running) ∧
    (∀ t, loaded.currentTask = some t → t.status = TaskStatus.running →
      (loadState loaded).currentTask = some { t with status := TaskStatus.paused }) := by
  obtain ⟨uu, ct⟩ := loaded
  cases ct with
  | none =>
    refine ⟨?_, ?_⟩
    · intro t' h
      simp [loadState] at h
    · intro t h
      simp at h
  | some t0 =>
    by_cases hr : t0.status = TaskStatus.running
    · refine ⟨?_, ?_⟩
      · intro t' h
        simp [loadState, hr] at h
        intro hrun
        rw [← h] at hrun
        simp at hrun
      · intro t h hrun
        simp only [Option.some.injEq] at h
        subst h
        simp [loadState, hr]
    · refine ⟨?_, ?_⟩
      · intro t' h
        simp [loadState, hr] at h
        rw [← h]
        exact hr
      · intro t h hrun
        simp only [Option.some.injEq] at h
        subst h
        exact absurd hrun hr

/-- Witness for C1: loading a state whose task is Running yields the
same task in status Paused. -/
theorem c1_witness :
    (loadState { unlockedUntil := 0, currentTask := some tRun }).currentTask =
      some { tRun with status := TaskStatus.paused } :=
  (c1_load_reclassifies_running { unlockedUntil := 0, currentTask := some tRun }).2
    tRun rfl rfl

/-! ### Claim C2 -/

/-- Claim C2 counterexample: the quantum-expiry handler
`pauseForQuantumTimeout` does not re-check `status == Running` before
acting — applied to a state whose task has already Completed, it moves
the task to Paused, refuting the claim that each of the two racing
transitions is guarded by such a re-check. -/
theorem c2_counterexample :
    sDone.app.currentTask = some tDone ∧
    tDone.status = TaskStatus.completed ∧
    (pauseForQuantumTimeout defaultConfig sDone).app.currentTask =
      some { tDone with status := TaskStatus.paused, lastTail := [] } := by
  refine ⟨rfl, rfl, ?_⟩
  rfl

/-- Claim C2 (amended): the quantum-expiry handler itself does not
re-check `status == Running`; the quantum-expiry transition and an
operator `pause()` are nevertheless mutually exclusive because every
transition out of Running first cancels the quantum timer: in any
reachable state the quantum-expiry callback can only fire while the
task is Running, the operator pause command is a guarded no-op on a
task that has left Running, and an accepted pause leaves the
quantum-expiry callback unable to fire.  Hence a task that has already
left Running is never moved to Paused by a late quantum-expiry
firing. -/
theorem c2_amended (cfg : Config) (s : SupState) (h : Reach cfg s) :
    (quantumEnabled s = true → taskRunning s = true) ∧
    (∀ t, s.app.currentTask = some t → t.status ≠ TaskStatus.running →
      pauseCommand cfg s = (s, CmdResult.replyNoRunning)) ∧
    (taskRunning s = true → quantumEnabled (pauseCommand cfg s).1 = false) := by
  obtain ⟨h1, h2, h3⟩ := timerInv_reach cfg s h
  refine ⟨?_, ?_, ?_⟩
  · intro hq
    apply h3
    unfold quantumEnabled at hq
    cases hqt : s.qt with
    | none => rw [hqt] at hq; exact absurd hq (by simp)
    | some i => simp [hqt]
  · intro t hct hnr
    unfold pauseCommand
    simp only [hct]
    rw [if_neg (by simpa using hnr)]
  · intro hr
    unfold taskRunning at hr
    cases hct : s.app.currentTask with
    | none => rw [hct] at hr; exact absurd hr (by simp)
    | some t =>
      rw [hct] at hr
      have ht : t.status = TaskStatus.running := by simpa using hr
      unfold pauseCommand
      simp only [hct]
      rw [if_pos (by simpa using ht)]
      rw [pauseCurrentTask_eq cfg s t hct]
      unfold quantumEnabled
      simp

/-- Witness for C2 at a reachable state (boot, unlock, `/run`) in which
the quantum timer is live: the task is indeed Running there, and an
accepted pause disables the quantum-expiry callback. -/
theorem c2_witness :
    taskRunning sRunDemo = true ∧
    quantumEnabled (pauseCommand defaultConfig sRunDemo).1 = false := by
  have h := c2_amended defaultConfig sRunDemo
    (Reach.step (Event.run 5000 "do" 0 1)
      (Reach.step (Event.unlock 0 true) (Reach.init none)))
  exact ⟨h.1 (by decide), h.2.2 (h.1 (by decide))⟩

/-! ### Claim C3 -/

/-- Claim C3 counterexample: with the gate locked and a Running task,
`/run` is rejected with the locked reply, not with
`task-already-active` — the lock guard precedes the active-task
guard. -/
theorem c3_counterexample :
    sLockedRun.app.currentTask = some tRun ∧
    tRun.status = TaskStatus.running ∧
    (runCommand defaultConfig 50 "new" 0 2 sLockedRun).2 = CmdResult.replyLocked ∧
    (runCommand defaultConfig 50 "new" 0 2 sLockedRun).2 ≠ CmdResult.replyAlreadyActive := by
  refine ⟨rfl, rfl, rfl, by decide⟩

/-- Claim C3 (amended): while a Task exists with status Running or
Paused, `/run` never mutates the existing Task and is always rejected;
the rejection reason is `task-already-active` whenever the gate is
unlocked and the rate limiter does not fire first (those two guards
take precedence). -/
theorem c3_amended (cfg : Config) (now : Nat) (text : String) (chatId : Int)
    (newId : Nat) (s : SupState) (t : TaskState)
    (hct : s.app.currentTask = some t)
    (hActive : t.status = TaskStatus.running ∨ t.status = TaskStatus.paused) :
    (runCommand cfg now text chatId newId s).1.app.currentTask = some t ∧
    (runCommand cfg now text chatId newId s).2 ≠ CmdResult.accepted ∧
    (isUnlocked now s = true → 3000 ≤ now - s.lastRequestTime →
      (runCommand cfg now text chatId newId s).2 = CmdResult.replyAlreadyActive) := by
  have hact : taskActive s = true := by
    unfold taskActive
    rw [hct]
    rcases hActive with h | h <;> simp [h]
  unfold runCommand
  by_cases hu : isUnlocked now s
  · rw [if_neg (by simp [hu])]
    by_cases hcond : now - s.lastRequestTime < 3000
    · simp only [if_pos hcond]
      refine ⟨hct, by simp, ?_⟩
      intro _ hge
      omega
    · simp only [if_neg hcond]
      rw [if_pos (by simpa using hact)]
      refine ⟨by simp [hct], by simp, ?_⟩
      intro _ _
      rfl
  · rw [if_pos (by simpa using hu)]
    refine ⟨hct, by simp, ?_⟩
    intro hu'
    rw [hu'] at hu
    exact absurd rfl hu

/-- Witness for C3 at a concrete unlocked state with a Running task:
the existing task is untouched and the reply is `task-already-active`. -/
theorem c3_witness :
    (runCommand defaultConfig 5000 "x" 0 2 sActiveRun).1.app.currentTask = some tRun ∧
    (runCommand defaultConfig 5000 "x" 0 2 sActiveRun).2 ≠ CmdResult.accepted ∧
    (runCommand defaultConfig 5000 "x" 0 2 sActiveRun).2 = CmdResult.replyAlreadyActive := by
  have h := c3_amended defaultConfig 5000 "x" 0 2 sActiveRun tRun rfl (Or.inl rfl)
  exact ⟨h.1, h.2.1, h.2.2 (by decide) (by decide)⟩

/-! ### Claim C4 -/

/-- Claim C4 counterexample: the error-stream append path performs no
compaction, so a single stderr data chunk of 1001 lines delivered into
an empty buffer leaves the buffer at 1001 lines — above the 1000-line
high-water mark. -/
theorem c4_counterexample :
    (appendStderr (List.replicate 1001 "x") []).length = 1001 ∧
    1000 < (appendStderr (List.replicate 1001 "x") []).length := by
  have hf : (List.replicate 1001 "x").filter (fun l => l ≠ "") = List.replicate 1001 "x" := by
    apply List.filter_eq_self.mpr
    intro a ha
    rw [List.eq_of_mem_replicate ha]
    decide
  have hlen : (appendStderr (List.replicate 1001 "x") []).length = 1001 := by
    unfold appendStderr
    rw [hf, List.nil_append, List.length_map, List.length_replicate]
  exact ⟨hlen, by omega⟩

/-- Claim C4 (amended): the standard-output append path never leaves
the buffer above the 1000-line high-water mark (compacting to the
newest 500 lines when exceeded), while the error-stream path is
unbounded; `tail(n)` for positive `n` returns exactly
`min n (buffered count)` lines, and they are a suffix of the buffer —
the most recent lines in arrival order. -/
theorem c4_amended :
    (∀ lines buf, (appendStdout lines buf).length ≤ 1000) ∧
    (∀ (n : Nat) (buf : List String), 0 < n →
      (sliceLast n buf).length = min n buf.length ∧ sliceLast n buf <:+ buf) := by
  have hslice : ∀ (n : Nat) (l : List String), 0 < n →
      (sliceLast n l).length = min n l.length := by
    intro n l hn
    unfold sliceLast
    rw [if_neg (by omega)]
    rw [List.length_drop]
    omega
  refine ⟨?_, ?_⟩
  · intro lines buf
    unfold appendStdout
    dsimp only
    split
    · rw [hslice 500 _ (by omega)]
      omega
    · rename_i hle
      omega
  · intro n buf hn
    refine ⟨hslice n buf hn, ?_⟩
    unfold sliceLast
    rw [if_neg (by omega)]
    exact List.drop_suffix _ _

/-- Witness for C4 at concrete inputs: a stdout append stays within the
mark, and `tail(2)` of a 3-line buffer is its 2-line suffix. -/
theorem c4_witness :
    (appendStdout ["a"] []).length ≤ 1000 ∧
    (sliceLast 2 ["a", "b", "c"]).length = min 2 (["a", "b", "c"] : List String).length ∧
    sliceLast 2 ["a", "b", "c"] <:+ ["a", "b", "c"] := by
  have h2 := c4_amended.2 2 ["a", "b", "c"] (by decide)
  exact ⟨c4_amended.1 ["a"] [], h2.1, h2.2⟩

/-! ### Claim C5 -/

/-- Claim C5 counterexample: the continue path (`/continue` →
`startExecution` → `startTimers`) never calls `stopTimers` before
starting the new timers.  Started from a state in which the previous
burst's timers (ids 0 and 1) are still scheduled, the restarted burst
gets fresh handles while the old heartbeat and quantum timers remain
live — refuting the claim that every burst restart cancels the previous
burst's timers before starting new ones. -/
theorem c5_counterexample :
    (continueCommand defaultConfig 5 sPausedLeak).2 = CmdResult.accepted ∧
    (continueCommand defaultConfig 5 sPausedLeak).1.hb = some 2 ∧
    0 ∈ (continueCommand defaultConfig 5 sPausedLeak).1.liveHB ∧
    1 ∈ (continueCommand defaultConfig 5 sPausedLeak).1.liveQT := by
  refine ⟨rfl, rfl, ?_, ?_⟩ <;> decide

/-- Claim C5 (amended): `stopTimers` is idempotent — cancelling when
both timers are already cancelled is safe and changes nothing; the
continue path does not itself cancel the previous burst's timers, but
in every reachable state a task that is not Running (in particular a
Paused one, the only state `continue()` accepts) has no live timers,
because whichever transition took the task out of Running cancelled
them — so no timer from a prior burst is live during, or can fire into,
a later burst. -/
theorem c5_amended (cfg : Config) (s : SupState) (h : Reach cfg s) :
    (∀ s0 : SupState, stopTimers (stopTimers s0) = stopTimers s0) ∧
    (taskRunning s = false →
      s.hb = none ∧ s.qt = none ∧ s.liveHB = [] ∧ s.liveQT = []) := by
  refine ⟨stopTimers_idem, ?_⟩
  intro hr
  exact timerInv_no_timers s (timerInv_reach cfg s h) hr

/-- Witness for C5 at the reachable paused state `sPausedDemo` (boot,
unlock, `/run`, `/pause`): no timers are live there, and `stopTimers`
is idempotent. -/
theorem c5_witness :
    stopTimers (stopTimers sPausedDemo) = stopTimers sPausedDemo ∧
    sPausedDemo.hb = none ∧ sPausedDemo.qt = none ∧
    sPausedDemo.liveHB = [] ∧ sPausedDemo.liveQT = [] := by
  have h := c5_amended defaultConfig sPausedDemo
    (Reach.step Event.pauseEv (Reach.step (Event.run 5000 "do" 0 1)
      (Reach.step (Event.unlock 0 true) (Reach.init none))))
  have h2 := h.2 (by decide)
  exact ⟨h.1 sPausedDemo, h2.1, h2.2.1, h2.2.2.1, h2.2.2.2⟩

/-! ### Claim C6 -/

theorem setUnlocked_stopTimers (u : Nat) (s : SupState) :
    stopTimers (setUnlocked u s) = setUnlocked u (stopTimers s) := by
  rw [stopTimers_eq, stopTimers_eq]
  rfl

theorem setUnlocked_killProc (u : Nat) (s : SupState) :
    killProc (setUnlocked u s) = setUnlocked u (killProc s) := by
  rw [killProc_eq, killProc_eq]
  rfl

theorem setUnlocked_setTask (u : Nat) (o : Option TaskState) (s : SupState) :
    setTask o (setUnlocked u s) = setUnlocked u (setTask o s) := rfl

theorem pauseCommand_setUnlocked (cfg : Config) (u : Nat) (s : SupState) :
    pauseCommand cfg (setUnlocked u s) =
      (setUnlocked u (pauseCommand cfg s).1, (pauseCommand cfg s).2) := by
  unfold pauseCommand
  cases hct : s.app.currentTask with
  | none => simp only [setUnlocked_currentTask, hct]
  | some t =>
    simp only [setUnlocked_currentTask, hct]
    split
    · rw [pauseCurrentTask_eq cfg (setUnlocked u s) t (by simp [hct]),
          pauseCurrentTask_eq cfg s t hct,
          setUnlocked_stopTimers, setUnlocked_killProc, setUnlocked_setTask]
      rfl
    · rfl

theorem stopCommand_setUnlocked (u : Nat) (s : SupState) :
    stopCommand (setUnlocked u s) =
      (setUnlocked u (stopCommand s).1, (stopCommand s).2) := by
  unfold stopCommand
  cases hct : s.app.currentTask with
  | none => simp only [setUnlocked_currentTask, hct]
  | some t =>
    simp only [setUnlocked_currentTask, hct]
    rw [stopCurrentTask_eq (setUnlocked u s) t (by simp [hct]),
        stopCurrentTask_eq s t hct,
        setUnlocked_stopTimers, setUnlocked_killProc, setUnlocked_setTask]

theorem cancelCommand_setUnlocked (u : Nat) (s : SupState) :
    cancelCommand (setUnlocked u s) =
      (setUnlocked u (cancelCommand s).1, (cancelCommand s).2) := by
  unfold cancelCommand
  cases hct : s.app.currentTask with
  | none => simp only [setUnlocked_currentTask, hct]
  | some t =>
    simp only [setUnlocked_currentTask, hct]
    rw [setUnlocked_stopTimers, setUnlocked_killProc, setUnlocked_setTask]

theorem statusCommand_setUnlocked (u : Nat) (s : SupState) :
    statusCommand (setUnlocked u s) =
      (setUnlocked u (statusCommand s).1, (statusCommand s).2) := by
  unfold statusCommand
  cases hct : s.app.currentTask with
  | none => simp only [setUnlocked_currentTask, hct]
  | some t => simp only [setUnlocked_currentTask, hct]

/-- Claim C6: `pause`, `stop`, `cancel` and `status` are permitted
regardless of the access gate — they behave identically whatever
`unlockedUntil` holds (their guards read only task existence and
status) and never produce the locked reply — while `/run`,
`/continue` and the continue button are rejected with the locked reply
whenever the gate is locked. -/
theorem c6_gate_exemptions (cfg : Config) :
    (∀ u s, pauseCommand cfg (setUnlocked u s) =
      (setUnlocked u (pauseCommand cfg s).1, (pauseCommand cfg s).2)) ∧
    (∀ u s, stopCommand (setUnlocked u s) =
      (setUnlocked u (stopCommand s).1, (stopCommand s).2)) ∧
    (∀ u s, cancelCommand (setUnlocked u s) =
      (setUnlocked u (cancelCommand s).1, (cancelCommand s).2)) ∧
    (∀ u s, statusCommand (setUnlocked u s) =
      (setUnlocked u (statusCommand s).1, (statusCommand s).2)) ∧
    (∀ s, (pauseCommand cfg s).2 ≠ CmdResult.replyLocked ∧
      (stopCommand s).2 ≠ CmdResult.replyLocked ∧
      (cancelCommand s).2 ≠ CmdResult.replyLocked ∧
      (statusCommand s).2 ≠ CmdResult.replyLocked) ∧
    (∀ now text chatId newId s, isUnlocked now s = false →
      runCommand cfg now text chatId newId s = (s, CmdResult.replyLocked)) ∧
    (∀ now s, isUnlocked now s = false →
      continueCommand cfg now s = (s, CmdResult.replyLocked)) ∧
    (∀ now taskId s, isUnlocked now s = false →
      continueCallback cfg now taskId s = (s, CmdResult.replyLocked)) := by
  refine ⟨pauseCommand_setUnlocked cfg, stopCommand_setUnlocked,
    cancelCommand_setUnlocked, statusCommand_setUnlocked, ?_, ?_, ?_, ?_⟩
  · intro s
    refine ⟨?_, ?_, ?_, ?_⟩
    · unfold pauseCommand
      cases hct : s.app.currentTask with
      | none => simp
      | some t => simp only [hct]; split <;> simp
    · unfold stopCommand
      cases hct : s.app.currentTask with
      | none => simp
      | some t => simp [hct]
    · unfold cancelCommand
      cases hct : s.app.currentTask with
      | none => simp
      | some t => simp [hct]
    · unfold statusCommand
      cases hct : s.app.currentTask with
      | none => simp
      | some t => simp [hct]
  · intro now text chatId newId s h
    unfold runCommand
    rw [if_pos (by simp [h])]
  · intro now s h
    unfold continueCommand
    rw [if_pos (by simp [h])]
  · intro now taskId s h
    unfold continueCallback
    rw [if_pos (by simp [h])]

/-- Witness for C6 at concrete states: pausing is unaffected by
relocking the gate, and a locked gate rejects `/run` and `/continue`. -/
theorem c6_witness :
    pauseCommand defaultConfig (setUnlocked 0 sActiveRun) =
      (setUnlocked 0 (pauseCommand defaultConfig sActiveRun).1,
        (pauseCommand defaultConfig sActiveRun).2) ∧
    runCommand defaultConfig 50 "x" 0 3 sLockedRun = (sLockedRun, CmdResult.replyLocked) ∧
    continueCommand defaultConfig 50 sLockedRun = (sLockedRun, CmdResult.replyLocked) := by
  have h := c6_gate_exemptions defaultConfig
  exact ⟨h.1 0 sActiveRun,
    h.2.2.2.2.2.1 50 "x" 0 3 sLockedRun (by decide),
    h.2.2.2.2.2.2.1 50 sLockedRun (by decide)⟩

/-! ### Claim C7 -/

theorem handleClose_eq_running (cfg : Config) (code : Option Int)
    (s : SupState) (t : TaskState)
    (hct : s.app.currentTask = some t) (hr : t.status = TaskStatus.running) :
    handleClose cfg code s =
      setTask (some { t with
          status := if code = some 0 then TaskStatus.completed else TaskStatus.error,
          lastTail := sliceLast cfg.tailLines s.outputBuffer })
        (stopTimers { s with procHandle := false, pendingClose := false }) := by
  have hc1 : (stopTimers { s with procHandle := false, pendingClose := false }).app.currentTask = some t := by
    simpa using hct
  unfold handleClose
  simp only [hc1]
  rw [if_pos hr]
  simp

theorem handleSpawnError_eq_some (msg : String) (s : SupState) (t : TaskState)
    (hct : s.app.currentTask = some t) :
    handleSpawnError msg s =
      setTask (some { t with status := TaskStatus.error })
        (stopTimers { s with
          outputBuffer := s.outputBuffer ++ ["[SPAWN ERROR] " ++ msg],
          pendingError := false, procHandle := false }) := by
  have hc1 : (stopTimers { s with
      outputBuffer := s.outputBuffer ++ ["[SPAWN ERROR] " ++ msg],
      pendingError := false, procHandle := false }).app.currentTask = some t := by
    simpa using hct
  unfold handleSpawnError
  simp only [hc1]

/-- Claim C7: when the subprocess of a Running task terminates, the
task becomes Completed on exit code 0 and Error on any other exit
report (nonzero or null), with the timers stopped and the output tail
snapshotted; a spawn failure is likewise handled as a terminal Error
transition with the timers stopped — an ordinary state transition, not
an uncaught fault. -/
theorem c7_close_and_spawn_failure (cfg : Config) (code : Option Int)
    (msg : String) (s : SupState) (t : TaskState)
    (hct : s.app.currentTask = some t) (hr : t.status = TaskStatus.running) :
    (handleClose cfg code s).app.currentTask =
      some { t with
        status := if code = some 0 then TaskStatus.completed else TaskStatus.error,
        lastTail := sliceLast cfg.tailLines s.outputBuffer } ∧
    (handleClose cfg code s).hb = none ∧ (handleClose cfg code s).qt = none ∧
    (handleSpawnError msg s).app.currentTask = some { t with status := TaskStatus.error } ∧
    (handleSpawnError msg s).hb = none ∧ (handleSpawnError msg s).qt = none := by
  rw [handleClose_eq_running cfg code s t hct hr, handleSpawnError_eq_some msg s t hct]
  simp

/-- Witness for C7 at a concrete running state with buffered output:
exit code 0 completes the task and snapshots the tail, and a spawn
failure marks it Error. -/
theorem c7_witness :
    (handleClose defaultConfig (some 0) sRunProc).app.currentTask =
      some { tRun with status := TaskStatus.completed, lastTail := ["l1", "l2"] } ∧
    (handleClose defaultConfig (some 0) sRunProc).qt = none ∧
    (handleSpawnError "ENOENT" sRunProc).app.currentTask =
      some { tRun with status := TaskStatus.error } := by
  have h := c7_close_and_spawn_failure defaultConfig (some 0) "ENOENT" sRunProc tRun rfl rfl
  exact ⟨h.1, h.2.2.1, h.2.2.2.1⟩

/-! ### Claim C8 -/

theorem buildContinuationPrompt_ne (cfg : Config) (t : TaskState) :
    buildContinuationPrompt cfg t ≠ t.taskText := by
  intro h
  have hl := congrArg String.length h
  simp only [buildContinuationPrompt, String.length_append] at hl
  have hh : 0 < promptHead.length := by decide
  omega

theorem continueCommand_eq_accepted (cfg : Config) (now : Nat) (s : SupState)
    (t : TaskState) (hu : isUnlocked now s = true)
    (hct : s.app.currentTask = some t) (hp : t.status = TaskStatus.paused) :
    continueCommand cfg now s =
      (startTimers
        { setTask (some (resumedTask now { t with continuationCount := t.continuationCount + 1 })) s with
          outputBuffer := [], procHandle := true, pendingClose := true,
          pendingError := true,
          spawnedPrompt := some (buildContinuationPrompt cfg
            (resumedTask now { t with continuationCount := t.continuationCount + 1 })) },
        CmdResult.accepted) := by
  unfold continueCommand
  rw [if_neg (by simp [hu])]
  simp only [hct]
  rw [if_pos hp]
  rw [startExecution_eq cfg now _ true _
    { t with continuationCount := t.continuationCount + 1 } (by simp)]
  rfl

/-- Claim C8: an accepted `continue()` on a Paused task marks the task
Running, stamps `quantumStartedAt` with the current time, clears the
output buffer, and invokes the Process Runner with the continuation
prompt built from the original task description plus the last output
tail — which is never the bare description. -/
theorem c8_continue_resumes (cfg : Config) (now : Nat) (s : SupState)
    (t : TaskState) (hu : isUnlocked now s = true)
    (hct : s.app.currentTask = some t) (hp : t.status = TaskStatus.paused) :
    (continueCommand cfg now s).2 = CmdResult.accepted ∧
    (continueCommand cfg now s).1.app.currentTask =
      some { t with status := TaskStatus.running, quantumStartedAt := now,
                    continuationCount := t.continuationCount + 1 } ∧
    (continueCommand cfg now s).1.outputBuffer = [] ∧
    (continueCommand cfg now s).1.spawnedPrompt = some (buildContinuationPrompt cfg t) ∧
    buildContinuationPrompt cfg t ≠ t.taskText := by
  rw [continueCommand_eq_accepted cfg now s t hu hct hp]
  refine ⟨rfl, rfl, rfl, ?_, buildContinuationPrompt_ne cfg t⟩
  show some (buildContinuationPrompt cfg
    (resumedTask now { t with continuationCount := t.continuationCount + 1 })) =
    some (buildContinuationPrompt cfg t)
  rw [buildContinuationPrompt_congr cfg
    (resumedTask now { t with continuationCount := t.continuationCount + 1 }) t rfl rfl]

/-- Witness for C8 at a concrete unlocked state with a paused task. -/
theorem c8_witness :
    (continueCommand defaultConfig 5 sPausedW).2 = CmdResult.accepted ∧
    (continueCommand defaultConfig 5 sPausedW).1.app.currentTask =
      some { tPaused with status := TaskStatus.running, quantumStartedAt := 5,
                          continuationCount := 1 } ∧
    (continueCommand defaultConfig 5 sPausedW).1.outputBuffer = [] ∧
    (continueCommand defaultConfig 5 sPausedW).1.spawnedPrompt =
      some (buildContinuationPrompt defaultConfig tPaused) := by
  have h := c8_continue_resumes defaultConfig 5 sPausedW tPaused (by decide) rfl rfl
  exact ⟨h.1, h.2.1, h.2.2.1, h.2.2.2.1⟩

/-! ### Claim C9 -/

theorem stepEvent_quantum_eq (cfg : Config) (s : SupState) :
    stepEvent cfg Event.quantumExpiry s =
      (match s.qt with
       | some i =>
         if s.liveQT.contains i then
           pauseForQuantumTimeout cfg { s with liveQT := s.liveQT.erase i }
         else s
       | none => s) := by
  obtain ⟨app, ph, pc, pe, ob, hb, qt, lhb, lqt, ft, lrt, sp⟩ := s
  cases qt <;> rfl

theorem handleClose_eq_not_running (cfg : Config) (code : Option Int)
    (s : SupState) (t : TaskState)
    (hct : s.app.currentTask = some t) (hr : ¬ t.status = TaskStatus.running) :
    handleClose cfg code s = stopTimers { s with procHandle := false, pendingClose := false } := by
  have hc1 : (stopTimers { s with procHandle := false, pendingClose := false }).app.currentTask = some t := by
    simpa using hct
  unfold handleClose
  simp only [hc1]
  rw [if_neg hr]

theorem contCount_of_same (t t' : TaskState) (b : Bool)
    (h : some t = some t') (hb : b = false) :
    t'.continuationCount = t.continuationCount + (if b then 1 else 0) := by
  injection h with hh
  rw [← hh, hb]
  simp

theorem continueCommand_eq_locked (cfg : Config) (now : Nat) (s : SupState)
    (hu : ¬ isUnlocked now s = true) :
    continueCommand cfg now s = (s, CmdResult.replyLocked) := by
  unfold continueCommand
  rw [if_pos (by simp [hu])]

theorem continueCommand_eq_notPaused (cfg : Config) (now : Nat) (s : SupState)
    (t : TaskState) (hu : isUnlocked now s = true)
    (hct : s.app.currentTask = some t) (hp : ¬ t.status = TaskStatus.paused) :
    continueCommand cfg now s = (s, CmdResult.replyNoPaused) := by
  unfold continueCommand
  rw [if_neg (by simp [hu])]
  simp only [hct]
  rw [if_neg hp]

theorem continueCommand_eq_noTask (cfg : Config) (now : Nat) (s : SupState)
    (hu : isUnlocked now s = true) (hct : s.app.currentTask = none) :
    continueCommand cfg now s = (s, CmdResult.replyNoPaused) := by
  unfold continueCommand
  rw [if_neg (by simp [hu])]
  simp only [hct]

theorem continueCallback_eq_accepted (cfg : Config) (now : Nat) (taskId : Nat)
    (s : SupState) (t : TaskState) (hu : isUnlocked now s = true)
    (hct : s.app.currentTask = some t)
    (hp : t.id = taskId ∧ t.status = TaskStatus.paused) :
    continueCallback cfg now taskId s =
      (startTimers
        { setTask (some (resumedTask now { t with continuationCount := t.continuationCount + 1 })) s with
          outputBuffer := [], procHandle := true, pendingClose := true,
          pendingError := true,
          spawnedPrompt := some (buildContinuationPrompt cfg
            (resumedTask now { t with continuationCount := t.continuationCount + 1 })) },
        CmdResult.accepted) := by
  unfold continueCallback
  rw [if_neg (by simp [hu])]
  simp only [hct]
  rw [if_pos hp]
  rw [startExecution_eq cfg now _ true _
    { t with continuationCount := t.continuationCount + 1 } (by simp)]
  rfl

theorem continueCallback_eq_notPaused (cfg : Config) (now : Nat) (taskId : Nat)
    (s : SupState) (t : TaskState) (hu : isUnlocked now s = true)
    (hct : s.app.currentTask = some t)
    (hp : ¬ (t.id = taskId ∧ t.status = TaskStatus.paused)) :
    continueCallback cfg now taskId s = (s, CmdResult.replyNoPaused) := by
  unfold continueCallback
  rw [if_neg (by simp [hu])]
  simp only [hct]
  rw [if_neg hp]

theorem continueCallback_eq_locked (cfg : Config) (now : Nat) (taskId : Nat)
    (s : SupState) (hu : ¬ isUnlocked now s = true) :
    continueCallback cfg now taskId s = (s, CmdResult.replyLocked) := by
  unfold continueCallback
  rw [if_pos (by simp [hu])]

theorem continueCallback_eq_noTask (cfg : Config) (now : Nat) (taskId : Nat)
    (s : SupState) (hu : isUnlocked now s = true)
    (hct : s.app.currentTask = none) :
    continueCallback cfg now taskId s = (s, CmdResult.replyNoPaused) := by
  unfold continueCallback
  rw [if_neg (by simp [hu])]
  simp only [hct]

/-- No event other than `/run` can create a task: starting from a state
with no task, every other event leaves the task absent. -/
theorem contCount_none_step (cfg : Config) (e : Event) (s : SupState)
    (hne : isRunEvent e = false) (hct : s.app.currentTask = none) :
    (stepEvent cfg e s).app.currentTask = none := by
  cases e with
  | unlock now pwOk =>
    simp only [stepEvent]
    split
    · simpa using hct
    · exact hct
  | lockBot => simpa [stepEvent] using hct
  | run now text chatId newId => exact absurd hne (by simp [isRunEvent])
  | cont now =>
    simp only [stepEvent]
    by_cases hu : isUnlocked now s = true
    · rw [continueCommand_eq_noTask cfg now s hu hct]
      exact hct
    · rw [continueCommand_eq_locked cfg now s hu]
      exact hct
  | contBtn now taskId =>
    simp only [stepEvent]
    by_cases hu : isUnlocked now s = true
    · rw [continueCallback_eq_noTask cfg now taskId s hu hct]
      exact hct
    · rw [continueCallback_eq_locked cfg now taskId s hu]
      exact hct
  | pauseEv =>
    simp only [stepEvent]
    unfold pauseCommand
    simp only [hct]
  | stopEv =>
    simp only [stepEvent]
    unfold stopCommand
    simp only [hct]
  | cancelEv =>
    simp only [stepEvent]
    unfold cancelCommand
    simp only [hct]
  | statusEv =>
    simp only [stepEvent]
    unfold statusCommand
    simp only [hct]
  | stdoutData lines =>
    simp only [stepEvent]
    split
    · exact hct
    · exact hct
  | stderrData lines =>
    simp only [stepEvent]
    split
    · exact hct
    · exact hct
  | closeEv code =>
    simp only [stepEvent]
    split
    · have hc1 : (stopTimers { s with procHandle := false, pendingClose := false }).app.currentTask = none := by
        simpa using hct
      unfold handleClose
      simp only [hc1]
    · exact hct
  | spawnErr msg =>
    simp only [stepEvent]
    split
    · have hc1 : (stopTimers { s with
          outputBuffer := s.outputBuffer ++ ["[SPAWN ERROR] " ++ msg],
          pendingError := false, procHandle := false }).app.currentTask = none := by
        simpa using hct
      unfold handleSpawnError
      simp only [hc1]
    · exact hct
  | heartbeatTick => exact hct
  | quantumExpiry =>
    rw [stepEvent_quantum_eq]
    cases hqt : s.qt with
    | none => exact hct
    | some i =>
      simp only
      split
      · rw [pauseForQuantumTimeout_none cfg _ (by simpa using hct)]
        simpa using hct
      · exact hct

/-- How one non-`/run` event changes `continuationCount`: an accepted
continue adds exactly one; every other event leaves it unchanged. -/
theorem contCount_step (cfg : Config) (e : Event) (s : SupState)
    (t t' : TaskState) (hne : isRunEvent e = false)
    (hct : s.app.currentTask = some t)
    (hct' : (stepEvent cfg e s).app.currentTask = some t') :
    t'.continuationCount = t.continuationCount +
      (if contAccepted cfg e s then 1 else 0) := by
  cases e with
  | unlock now pwOk =>
    simp only [stepEvent] at hct'
    split at hct'
    · rw [setUnlocked_currentTask, hct] at hct'
      exact contCount_of_same t t' _ hct' rfl
    · rw [hct] at hct'
      exact contCount_of_same t t' _ hct' rfl
  | lockBot =>
    simp only [stepEvent, setUnlocked_currentTask, hct] at hct'
    exact contCount_of_same t t' _ (by rw [hct']) rfl
  | run now text chatId newId => exact absurd hne (by simp [isRunEvent])
  | cont now =>
    simp only [stepEvent] at hct'
    by_cases hu : isUnlocked now s = true
    · by_cases hp : t.status = TaskStatus.paused
      · have hca : contAccepted cfg (Event.cont now) s = true := by
          simp only [contAccepted, continueCommand_eq_accepted cfg now s t hu hct hp]
          decide
        rw [continueCommand_eq_accepted cfg now s t hu hct hp] at hct'
        simp only [startTimers_app, setTask_currentTask] at hct'
        injection hct' with hh
        rw [← hh, hca]
        simp [resumedTask]
      · have hca : contAccepted cfg (Event.cont now) s = false := by
          simp only [contAccepted, continueCommand_eq_notPaused cfg now s t hu hct hp]
          decide
        rw [continueCommand_eq_notPaused cfg now s t hu hct hp] at hct'
        rw [hct] at hct'
        exact contCount_of_same t t' _ hct' hca
    · have hca : contAccepted cfg (Event.cont now) s = false := by
        simp only [contAccepted, continueCommand_eq_locked cfg now s hu]
        decide
      rw [continueCommand_eq_locked cfg now s hu] at hct'
      rw [hct] at hct'
      exact contCount_of_same t t' _ hct' hca
  | contBtn now taskId =>
    simp only [stepEvent] at hct'
    by_cases hu : isUnlocked now s = true
    · by_cases hp : t.id = taskId ∧ t.status = TaskStatus.paused
      · have hca : contAccepted cfg (Event.contBtn now taskId) s = true := by
          simp only [contAccepted, continueCallback_eq_accepted cfg now taskId s t hu hct hp]
          decide
        rw [continueCallback_eq_accepted cfg now taskId s t hu hct hp] at hct'
        simp only [startTimers_app, setTask_currentTask] at hct'
        injection hct' with hh
        rw [← hh, hca]
        simp [resumedTask]
      · have hca : contAccepted cfg (Event.contBtn now taskId) s = false := by
          simp only [contAccepted, continueCallback_eq_notPaused cfg now taskId s t hu hct hp]
          decide
        rw [continueCallback_eq_notPaused cfg now taskId s t hu hct hp] at hct'
        rw [hct] at hct'
        exact contCount_of_same t t' _ hct' hca
    · have hca : contAccepted cfg (Event.contBtn now taskId) s = false := by
        simp only [contAccepted, continueCallback_eq_locked cfg now taskId s hu]
        decide
      rw [continueCallback_eq_locked cfg now taskId s hu] at hct'
      rw [hct] at hct'
      exact contCount_of_same t t' _ hct' hca
  | pauseEv =>
    simp only [stepEvent] at hct'
    unfold pauseCommand at hct'
    simp only [hct] at hct'
    by_cases hr : t.status = TaskStatus.running
    · rw [if_pos hr, pauseCurrentTask_eq cfg s t hct] at hct'
      simp only [setTask_currentTask] at hct'
      injection hct' with hh
      rw [← hh]
      simp [contAccepted]
    · rw [if_neg hr, hct] at hct'
      exact contCount_of_same t t' _ hct' rfl
  | stopEv =>
    simp only [stepEvent] at hct'
    unfold stopCommand at hct'
    simp only [hct] at hct'
    rw [stopCurrentTask_eq s t hct] at hct'
    simp only [setTask_currentTask] at hct'
    exact absurd hct' (by simp)
  | cancelEv =>
    simp only [stepEvent] at hct'
    unfold cancelCommand at hct'
    simp only [hct] at hct'
    simp only [setTask_currentTask] at hct'
    exact absurd hct' (by simp)
  | statusEv =>
    simp only [stepEvent] at hct'
    unfold statusCommand at hct'
    simp only [hct] at hct'
    exact contCount_of_same t t' _ hct' rfl
  | stdoutData lines =>
    simp only [stepEvent] at hct'
    split at hct'
    · rw [show ({ s with outputBuffer := appendStdout lines s.outputBuffer } : SupState).app.currentTask = s.app.currentTask from rfl, hct] at hct'
      exact contCount_of_same t t' _ hct' rfl
    · rw [hct] at hct'
      exact contCount_of_same t t' _ hct' rfl
  | stderrData lines =>
    simp only [stepEvent] at hct'
    split at hct'
    · rw [show ({ s with outputBuffer := appendStderr lines s.outputBuffer } : SupState).app.currentTask = s.app.currentTask from rfl, hct] at hct'
      exact contCount_of_same t t' _ hct' rfl
    · rw [hct] at hct'
      exact contCount_of_same t t' _ hct' rfl
  | closeEv code =>
    simp only [stepEvent] at hct'
    split at hct'
    · by_cases hr : t.status = TaskStatus.running
      · rw [handleClose_eq_running cfg code s t hct hr] at hct'
        simp only [setTask_currentTask] at hct'
        injection hct' with hh
        rw [← hh]
        simp [contAccepted]
      · rw [handleClose_eq_not_running cfg code s t hct hr] at hct'
        rw [show (stopTimers { s with procHandle := false, pendingClose := false }).app.currentTask = s.app.currentTask from by simp, hct] at hct'
        exact contCount_of_same t t' _ hct' rfl
    · rw [hct] at hct'
      exact contCount_of_same t t' _ hct' rfl
  | spawnErr msg =>
    simp only [stepEvent] at hct'
    split at hct'
    · rw [handleSpawnError_eq_some msg s t hct] at hct'
      simp only [setTask_currentTask] at hct'
      injection hct' with hh
      rw [← hh]
      simp [contAccepted]
    · rw [hct] at hct'
      exact contCount_of_same t t' _ hct' rfl
  | heartbeatTick =>
    simp only [stepEvent] at hct'
    rw [hct] at hct'
    exact contCount_of_same t t' _ hct' rfl
  | quantumExpiry =>
    rw [stepEvent_quantum_eq] at hct'
    cases hqt : s.qt with
    | none =>
      rw [hqt] at hct'
      simp only at hct'
      rw [hct] at hct'
      exact contCount_of_same t t' _ hct' rfl
    | some i =>
      rw [hqt] at hct'
      simp only at hct'
      split at hct'
      · rw [pauseForQuantumTimeout_eq cfg _ t (by simpa using hct)] at hct'
        simp only [setTask_currentTask] at hct'
        injection hct' with hh
        rw [← hh]
        simp [contAccepted]
      · rw [hct] at hct'
        exact contCount_of_same t t' _ hct' rfl

/-- Without `/run`, an absent task stays absent across any event
sequence. -/
theorem runEvents_none (cfg : Config) (es : List Event) (s : SupState)
    (hne : ∀ e ∈ es, isRunEvent e = false) (hct : s.app.currentTask = none) :
    (runEvents cfg es s).app.currentTask = none := by
  induction es generalizing s with
  | nil => exact hct
  | cons e es ih =>
    exact ih _ (fun e' he' => hne e' (List.mem_cons_of_mem e he'))
      (contCount_none_step cfg e s (hne e (List.mem_cons_self e es)) hct)

/-- Claim C9: `continuationCount` starts at 0 when `/run` creates a
Task, and across any sequence of events that does not replace the Task
(no `/run`), the final count equals the initial count plus the number
of accepted continue operations — each accepted continue adds exactly
one, no other operation changes it, and the count never decreases. -/
theorem c9_continuation_count (cfg : Config) :
    (∀ now text chatId newId s t',
      (runCommand cfg now text chatId newId s).2 = CmdResult.accepted →
      (runCommand cfg now text chatId newId s).1.app.currentTask = some t' →
      t'.continuationCount = 0) ∧
    (∀ (es : List Event) (s : SupState) (t t' : TaskState),
      (∀ e ∈ es, isRunEvent e = false) →
      s.app.currentTask = some t →
      (runEvents cfg es s).app.currentTask = some t' →
      t'.continuationCount = t.continuationCount + contsAccepted cfg es s) := by
  constructor
  · intro now text chatId newId s t' hacc hct'
    unfold runCommand at hacc hct'
    by_cases hu : isUnlocked now s
    · rw [if_neg (by simp [hu])] at hacc hct'
      by_cases hcond : now - s.lastRequestTime < 3000
      · rw [if_pos hcond] at hacc
        exact absurd hacc (by simp)
      · rw [if_neg hcond] at hacc hct'
        by_cases hact : taskActive (setLastReq now s) = true
        · rw [if_pos hact] at hacc
          exact absurd hacc (by simp)
        · rw [if_neg hact] at hacc hct'
          by_cases hemp : trimStr text = ""
          · rw [if_pos hemp] at hacc
            exact absurd hacc (by simp)
          · rw [if_neg hemp] at hct'
            dsimp only at hct'
            rw [startExecution_eq cfg now _ false _
              { id := newId, taskText := trimStr text, status := TaskStatus.running,
                startedAt := now, quantumStartedAt := now, chatId := chatId,
                statusMsgId := none,
                logFilePath := cfg.logDir ++ "/task-" ++ toString newId ++ ".log",
                lastTail := [], continuationCount := 0 } (by simp)] at hct'
            simp only [startTimers_app, setTask_currentTask] at hct'
            injection hct' with hh
            rw [← hh]
            rfl
    · rw [if_pos (by simp [hu])] at hacc
      exact absurd hacc (by simp)
  · intro es
    induction es with
    | nil =>
      intro s t t' _ hct hct'
      have hct2 : s.app.currentTask = some t' := hct'
      rw [hct] at hct2
      injection hct2 with hh
      rw [← hh]
      simp [contsAccepted]
    | cons e es ih =>
      intro s t t' hne hct hct'
      have hne1 : isRunEvent e = false := hne e (List.mem_cons_self e es)
      have hne2 : ∀ e' ∈ es, isRunEvent e' = false :=
        fun e' he' => hne e' (List.mem_cons_of_mem e he')
      cases hmid : (stepEvent cfg e s).app.currentTask with
      | none =>
        have hnone : (runEvents cfg es (stepEvent cfg e s)).app.currentTask = none :=
          runEvents_none cfg es _ hne2 hmid
        have : (runEvents cfg (e :: es) s).app.currentTask = none := hnone
        rw [this] at hct'
        exact absurd hct' (by simp)
      | some tm =>
        have h1 := contCount_step cfg e s t tm hne1 hct hmid
        have h2 := ih (stepEvent cfg e s) tm t' hne2 hmid hct'
        rw [h2, h1]
        show _ = t.continuationCount +
          ((if contAccepted cfg e s then 1 else 0) + contsAccepted cfg es (stepEvent cfg e s))
        omega

/-- Witness for C9: on a concrete paused task, the sequence continue,
pause, continue yields `continuationCount = 0 + 2`. -/
theorem c9_witness :
    ({ tPaused with
      status := TaskStatus.running, quantumStartedAt := 6,
      lastTail := [], continuationCount := 2 } : TaskState).continuationCount =
      tPaused.continuationCount +
        contsAccepted defaultConfig [Event.cont 5, Event.pauseEv, Event.cont 6] sPausedW :=
  (c9_continuation_count defaultConfig).2 [Event.cont 5, Event.pauseEv, Event.cont 6]
    sPausedW tPaused _ (by decide) rfl (by decide)

/-! ### Claim C10 -/

/-- Claim C10: `/run` is rate limited.  A start attempt within 3000 ms
of the previous accepted limiter stamp is rejected with the rate-limit
reply and mutates nothing — even when the gate is unlocked and no task
is active (the statement holds for every state); a run that passes the
lock and rate guards stamps the limiter timestamp with the current
time, so a second attempt within 3000 ms of it is the rejected case;
`rateLimitCheck` fails exactly inside the 3000 ms window; and continue,
pause, stop, cancel and status are not rate limited — they never
produce the rate-limit reply and never touch the limiter timestamp. -/
theorem c10_rate_limit (cfg : Config) :
    (∀ now text chatId newId s, isUnlocked now s = true →
      now - s.lastRequestTime < 3000 →
      runCommand cfg now text chatId newId s = (s, CmdResult.replyRateLimited)) ∧
    (∀ now s, (rateLimitCheck now s).2 = false ↔ now - s.lastRequestTime < 3000) ∧
    (∀ now text chatId newId s,
      (runCommand cfg now text chatId newId s).2 ≠ CmdResult.replyLocked →
      (runCommand cfg now text chatId newId s).2 ≠ CmdResult.replyRateLimited →
      (runCommand cfg now text chatId newId s).1.lastRequestTime = now) ∧
    (∀ now s, (continueCommand cfg now s).2 ≠ CmdResult.replyRateLimited ∧
      (continueCommand cfg now s).1.lastRequestTime = s.lastRequestTime) ∧
    (∀ s, (pauseCommand cfg s).2 ≠ CmdResult.replyRateLimited ∧
      (pauseCommand cfg s).1.lastRequestTime = s.lastRequestTime) ∧
    (∀ s, (stopCommand s).2 ≠ CmdResult.replyRateLimited ∧
      (stopCommand s).1.lastRequestTime = s.lastRequestTime) ∧
    (∀ s, (cancelCommand s).2 ≠ CmdResult.replyRateLimited ∧
      (cancelCommand s).1.lastRequestTime = s.lastRequestTime) ∧
    (∀ s, (statusCommand s).2 ≠ CmdResult.replyRateLimited ∧
      (statusCommand s).1.lastRequestTime = s.lastRequestTime) := by
  refine ⟨?_, ?_, ?_, ?_, ?_, ?_, ?_, ?_⟩
  · intro now text chatId newId s hu hcond
    unfold runCommand
    rw [if_neg (by simp [hu]), if_pos hcond]
  · intro now s
    unfold rateLimitCheck
    by_cases h : now - s.lastRequestTime < 3000 <;> simp [h]
  · intro now text chatId newId s hnl hnr
    unfold runCommand at hnl hnr ⊢
    by_cases hu : isUnlocked now s
    · rw [if_neg (by simp [hu])] at hnr ⊢
      by_cases hcond : now - s.lastRequestTime < 3000
      · rw [if_pos hcond] at hnr
        exact absurd rfl hnr
      · rw [if_neg hcond]
        by_cases hact : taskActive (setLastReq now s) = true
        · rw [if_pos hact]
          rfl
        · rw [if_neg hact]
          by_cases hemp : trimStr text = ""
          · rw [if_pos hemp]
            rfl
          · rw [if_neg hemp]
            dsimp only
            rw [startExecution_eq cfg now _ false _
              { id := newId, taskText := trimStr text, status := TaskStatus.running,
                startedAt := now, quantumStartedAt := now, chatId := chatId,
                statusMsgId := none,
                logFilePath := cfg.logDir ++ "/task-" ++ toString newId ++ ".log",
                lastTail := [], continuationCount := 0 } (by simp)]
            simp
    · rw [if_pos (by simp [hu])] at hnl
      exact absurd rfl hnl
  · intro now s
    by_cases hu : isUnlocked now s = true
    · cases hct : s.app.currentTask with
      | none =>
        rw [continueCommand_eq_noTask cfg now s hu hct]
        exact ⟨by simp, rfl⟩
      | some t =>
        by_cases hp : t.status = TaskStatus.paused
        · rw [continueCommand_eq_accepted cfg now s t hu hct hp]
          exact ⟨by simp, by simp⟩
        · rw [continueCommand_eq_notPaused cfg now s t hu hct hp]
          exact ⟨by simp, rfl⟩
    · rw [continueCommand_eq_locked cfg now s hu]
      exact ⟨by simp, rfl⟩
  · intro s
    unfold pauseCommand
    cases hct : s.app.currentTask with
    | none => exact ⟨by simp, rfl⟩
    | some t =>
      dsimp only
      by_cases hr : t.status = TaskStatus.running
      · rw [if_pos hr, pauseCurrentTask_eq cfg s t hct]
        exact ⟨by simp, by simp⟩
      · rw [if_neg hr]
        exact ⟨by simp, rfl⟩
  · intro s
    unfold stopCommand
    cases hct : s.app.currentTask with
    | none => exact ⟨by simp, rfl⟩
    | some t =>
      rw [stopCurrentTask_eq s t hct]
      exact ⟨by simp, by simp⟩
  · intro s
    unfold cancelCommand
    cases hct : s.app.currentTask with
    | none => exact ⟨by simp, rfl⟩
    | some t => exact ⟨by simp, by simp⟩
  · intro s
    unfold statusCommand
    cases hct : s.app.currentTask with
    | none => exact ⟨by simp, rfl⟩
    | some t => exact ⟨by simp, rfl⟩

/-- Witness for C10: with the gate unlocked, no task, and only 2000 ms
since the limiter stamp, `/run` is rejected by the rate limiter and the
state is unchanged, while `/continue` at the same instant is not
rate limited. -/
theorem c10_witness :
    runCommand defaultConfig 2000 "x" 0 1 sIdleUnlocked =
      (sIdleUnlocked, CmdResult.replyRateLimited) ∧
    (continueCommand defaultConfig 2000 sIdleUnlocked).2 ≠ CmdResult.replyRateLimited := by
  have h := c10_rate_limit defaultConfig
  exact ⟨h.1 2000 "x" 0 1 sIdleUnlocked (by decide) (by decide),
    (h.2.2.2.1 2000 sIdleUnlocked).1⟩

end Bot
